import Mathlib

/-!
Verification of the protocol-observation core of opentelemetry-ebpf-instrumentation.

Shallow embedding of the C sources under `bpf/` and theorems about them.

Conventions of the embedding:
* machine integers are `Nat` with an explicit `% 2 ^ w` where the C type can wrap;
* a byte buffer addressed from its base pointer is a function `offset ↦ byte`;
* C loops whose trip count is not fixed syntactically carry a fuel argument and
  return `none` when the fuel is exhausted while the loop condition still holds.
-/

namespace Obi

/-! ## Buffers -/

/-- A byte buffer seen from its base pointer: offset to byte value. -/
abbrev Buf := Nat → Nat

/-- Store of one byte: `b[i] = v`. -/
def Buf.write (b : Buf) (i v : Nat) : Buf := fun k => if k = i then v else b k

/-- The buffer that starts `off` bytes further: `&b[off]`. -/
def Buf.shift (b : Buf) (off : Nat) : Buf := fun k => b (off + k)

/-- Buffer holding the bytes of a list, zero beyond its end. -/
def Buf.ofList (l : List Nat) : Buf := fun k => l.getD k 0

/-- Wrap-around modulus of `u32`. -/
def U32 : Nat := 2 ^ 32

/-- Wrap-around modulus of `u16`. -/
def U16 : Nat := 2 ^ 16

/-! ## `bpf/common/trace_util.h`: hex codec -/

/-- The string literal `"0123456789abcdef"` with its terminating NUL. -/
def hex : List Nat :=
  [0x30, 0x31, 0x32, 0x33, 0x34, 0x35, 0x36, 0x37, 0x38, 0x39,
   0x61, 0x62, 0x63, 0x64, 0x65, 0x66, 0x00]

/-- One 16-byte row of `0xff` of the `reverse_hex` literal. -/
def ffRow : List Nat := List.replicate 16 0xff

/-- The 256-byte literal `reverse_hex` with its terminating NUL, row by row. -/
def reverse_hex : List Nat :=
  ffRow ++ ffRow ++ ffRow ++
  [0x00, 0x01, 0x02, 0x03, 0x04, 0x05, 0x06, 0x07, 0x08, 0x09,
   0xff, 0xff, 0xff, 0xff, 0xff, 0xff] ++
  [0xff, 0x0a, 0x0b, 0x0c, 0x0d, 0x0e, 0x0f, 0xff,
   0xff, 0xff, 0xff, 0xff, 0xff, 0xff, 0xff, 0xff] ++
  ffRow ++
  [0xff, 0x0a, 0x0b, 0x0c, 0x0d, 0x0e, 0x0f, 0xff,
   0xff, 0xff, 0xff, 0xff, 0xff, 0xff, 0xff, 0xff] ++
  ffRow ++ ffRow ++ ffRow ++ ffRow ++ ffRow ++ ffRow ++ ffRow ++ ffRow ++ ffRow ++
  [0x00]

/-- The byte stored by one iteration of `decode_hex` for the characters `p`, `q`:
`((a << 4) | b) & 0xff` with `a = reverse_hex[p & 0xff] & 0x0f`, likewise `b`. -/
def decode_hex_byte (p q : Nat) : Nat :=
  let a := reverse_hex.getD (p &&& 0xff) 0
  let b := reverse_hex.getD (q &&& 0xff) 0
  let a := a &&& 0x0f
  let b := b &&& 0x0f
  ((a <<< 4) ||| b) &&& 0xff

/-- The loop of `decode_hex`, from the state `(i, j, dst)`:
`for (u32 i = 1, j = 0; i < src_len; i += 2) { ...; dst[j++] = ...; }`. -/
def decode_hex_loop (src : Buf) (src_len : Nat) : Nat → Nat → Nat → Buf → Option Buf
  | 0, i, _, dst => if i < src_len then none else some dst
  | fuel + 1, i, j, dst =>
    if i < src_len then
      let p := src (i - 1)
      let q := src i
      decode_hex_loop src src_len fuel ((i + 2) % U32) ((j + 1) % U32)
        (dst.write j (decode_hex_byte p q))
    else some dst

/-- The function `decode_hex(dst, src, src_len)`: the contents of `dst` afterwards.
Each iteration advances `i` by 2, so `src_len` iterations of fuel are ample
unless `i` wraps. -/
def decode_hex (dst src : Buf) (src_len : Nat) : Option Buf :=
  decode_hex_loop src src_len src_len 1 0 dst

/-- The loop of `encode_hex`, from the state `(i, j, dst)`:
`for (u32 i = 0, j = 0; i < src_len; i++) { dst[j++] = ...; dst[j++] = ...; }`. -/
def encode_hex_loop (src : Buf) (src_len : Nat) : Nat → Nat → Nat → Buf → Option Buf
  | 0, i, _, dst => if i < src_len then none else some dst
  | fuel + 1, i, j, dst =>
    if i < src_len then
      let p := src i
      let dst := dst.write j (hex.getD ((p >>> 4) &&& 0xff) 0)
      let j := (j + 1) % U32
      let dst := dst.write j (hex.getD (p &&& 0x0f) 0)
      let j := (j + 1) % U32
      encode_hex_loop src src_len fuel ((i + 1) % U32) j dst
    else some dst

/-- The function `encode_hex(dst, src, src_len)`: the contents of `dst` afterwards. -/
def encode_hex (dst src : Buf) (src_len : Nat) : Option Buf :=
  encode_hex_loop src src_len src_len 0 0 dst

/-! ## `bpf/common/http_buf_size.h`, `bpf/common/trace_util.h`: bounded header scanner -/

/-- The macro `TRACE_BUF_SIZE`. -/
def TRACE_BUF_SIZE : Nat := 1024

/-- The macro `TRACE_PARENT_HEADER_LEN` (55 + 13). -/
def TRACE_PARENT_HEADER_LEN : Nat := 68

/-- The struct `callback_ctx` (padding left out). -/
structure callback_ctx where
  buf : Buf
  pos : Nat

/-- The predicate `is_traceparent(p)` on the 13 bytes at `p`. -/
def is_traceparent (p : Buf) : Bool :=
  ((p 0 == 'T'.toNat) || (p 0 == 't'.toNat)) && (p 1 == 'r'.toNat) && (p 2 == 'a'.toNat) &&
  (p 3 == 'c'.toNat) && (p 4 == 'e'.toNat) && ((p 5 == 'p'.toNat) || (p 5 == 'P'.toNat)) &&
  (p 6 == 'a'.toNat) && (p 7 == 'r'.toNat) && (p 8 == 'e'.toNat) && (p 9 == 'n'.toNat) &&
  (p 10 == 't'.toNat) && (p 11 == ':'.toNat) && (p 12 == ' '.toNat)

/-- The callback `tp_match(index, data)`: the context afterwards and the return value. -/
def tp_match (index : Nat) (ctx : callback_ctx) : callback_ctx × Nat :=
  if index ≥ TRACE_BUF_SIZE - TRACE_PARENT_HEADER_LEN then (ctx, 1)
  else
    let s := ctx.buf.shift index
    if is_traceparent s then ({ ctx with pos := index }, 1)
    else (ctx, 0)

/-- The kernel limit `BPF_MAX_LOOPS` of the `bpf_loop` helper. -/
def BPF_MAX_LOOPS : Nat := 8 * 1024 * 1024

/-- The iteration of the kernel helper `bpf_loop` from index `i` with `r` indices left:
`for (; i < nr_loops; i++) { ret = callback(i, ctx); if (ret) return i + 1; } return i;`.
Yields the callback context afterwards and the number of calls made in all. -/
def bpf_loop_from {σ : Type} (cb : Nat → σ → σ × Nat) : Nat → Nat → σ → σ × Nat
  | 0, i, d => (d, i)
  | r + 1, i, d =>
    if (cb i d).2 ≠ 0 then ((cb i d).1, i + 1)
    else bpf_loop_from cb r (i + 1) (cb i d).1

/-- The kernel helper `bpf_loop(nr_loops, callback_fn, callback_ctx, flags)` as documented:
`-EINVAL` (-22) for non-zero flags, `-E2BIG` (-7) above `BPF_MAX_LOOPS`, otherwise the
callback runs for `0, 1, ...` until it returns non-zero or `nr_loops` is reached. -/
def bpf_loop {σ : Type} (nr_loops : Nat) (cb : Nat → σ → σ × Nat) (d : σ) (flags : Nat) :
    σ × Int :=
  if flags ≠ 0 then (d, -22)
  else if nr_loops > BPF_MAX_LOOPS then (d, -7)
  else ((bpf_loop_from cb nr_loops 0 d).1, ((bpf_loop_from cb nr_loops 0 d).2 : Int))

/-- The function `bpf_strstr_tp_loop(buf, buf_len)`; `none` is `NULL`, `some p` is `&buf[p]`.
The global `g_bpf_traceparent_enabled` is the first argument. -/
def bpf_strstr_tp_loop (g_bpf_traceparent_enabled : Bool) (buf : Buf) (buf_len : Nat) :
    Option Nat :=
  if !g_bpf_traceparent_enabled then none
  else
    let data : callback_ctx := { buf := buf, pos := 0 }
    let nr_loops := buf_len % U32
    let data := (bpf_loop nr_loops tp_match data 0).1
    if data.pos ≠ 0 then
      if data.pos > TRACE_BUF_SIZE - TRACE_PARENT_HEADER_LEN then none else some data.pos
    else none

/-- The constant `k_besteffort_max_loops` of the legacy scanner. -/
def k_besteffort_max_loops : Nat := 350

/-- The loop of `bpf_strstr_tp_loop__legacy` from index `i` with `r` indices left:
`for (u16 i = 0; i < k_besteffort_max_loops; i++) if (is_traceparent(&buf[i])) return &buf[i];`. -/
def legacy_scan (buf : Buf) : Nat → Nat → Option Nat
  | 0, _ => none
  | r + 1, i => if is_traceparent (buf.shift i) then some i else legacy_scan buf r (i + 1)

/-- The function `bpf_strstr_tp_loop__legacy(buf, buf_len)`; `buf_len` is unused. -/
def bpf_strstr_tp_loop__legacy (g_bpf_traceparent_enabled : Bool) (buf : Buf)
    (_buf_len : Nat) : Option Nat :=
  if !g_bpf_traceparent_enabled then none
  else legacy_scan buf k_besteffort_max_loops 0

/-- Bytes of an ASCII string. -/
def bytesOf (s : String) : List Nat := s.toList.map Char.toNat

/-- A request buffer that starts with the traceparent header. -/
def tpFirstBuf : Buf :=
  Buf.ofList (bytesOf "Traceparent: 00-0af7651916cd43dd8448eb211c80319c-b7ad6b7169203331-01\r\n\r\n")

/-- A request buffer without any traceparent header. -/
def noTpBuf : Buf :=
  Buf.ofList (bytesOf "GET /tracepar HTTP/1.1\r\nHost: traceparent\r\n\r\n")

/-- A four-byte sample for the hex codec. -/
def hexSample : Buf := Buf.ofList [0xde, 0xad, 0xbe, 0xef]

/-- A buffer of zero bytes. -/
def zeroBuf : Buf := fun _ => 0

/-! ## `bpf/common/dns.h`: DNS parser -/

/-- Byte order of the BPF target the program is compiled for (`bpfel` or `bpfeb`). -/
inductive Endian where
  | little
  | big
deriving DecidableEq, Repr

/-- The value of a `u16` object whose two bytes in memory are `m0`, `m1`. -/
def u16_of_bytes (e : Endian) (m0 m1 : Nat) : Nat :=
  match e with
  | .little => m0 % 256 + 256 * (m1 % 256)
  | .big => 256 * (m0 % 256) + m1 % 256

/-- The byte at the lowest address of a `u16` object holding `v`. -/
def u16_byte0 (e : Endian) (v : Nat) : Nat :=
  match e with
  | .little => v % 256
  | .big => v / 256 % 256

/-- The byte at the highest address of a `u16` object holding `v`. -/
def u16_byte1 (e : Endian) (v : Nat) : Nat :=
  match e with
  | .little => v / 256 % 256
  | .big => v % 256

/-- The macro `bpf_ntohs` of `bpf_endian.h`: a byte swap on a little-endian target, the
identity on a big-endian one. -/
def bpf_ntohs (e : Endian) (v : Nat) : Nat :=
  match e with
  | .little => (v % 256) * 256 + v / 256 % 256
  | .big => v % U16

/-- The member `qr` of `union dnsflags` read from an object whose `flags` member holds `v`.
`qr` is the first declared one-bit field of the first byte: the compiler places it at the
least significant bit of that byte on a little-endian target and at the most significant bit
on a big-endian one. -/
def dnsflags_qr (e : Endian) (v : Nat) : Nat :=
  match e with
  | .little => u16_byte0 e v % 2
  | .big => u16_byte0 e v / 128 % 2

/-- The enumerators `k_dns_qr_query` and `k_dns_qr_resp` of `enum dns_qr_type`. -/
def k_dns_qr_query : Nat := 0

/-- See `k_dns_qr_query`. -/
def k_dns_qr_resp : Nat := 1

/-- The protocol number `IPPROTO_UDP`. -/
def IPPROTO_UDP : Nat := 17

/-- The protocol number `IPPROTO_TCP`. -/
def IPPROTO_TCP : Nat := 6

/-- The size `sizeof(struct udphdr)`. -/
def sizeof_udphdr : Nat := 8

/-- The size `sizeof(struct tcphdr)`. -/
def sizeof_tcphdr : Nat := 20

/-- The byte offset `offsetof(struct dnshdr, id)`. -/
def dnshdr_id_off : Nat := 0

/-- The byte offset `offsetof(struct dnshdr, flags)`. -/
def dnshdr_flags_off : Nat := 2

/-- The fields of `struct __sk_buff` the parser uses, with the packet bytes by offset. -/
structure sk_buff where
  len : Nat
  pkt_type : Nat
  data : Buf

/-- The kernel helper `bpf_skb_load_bytes(skb, offset, to, len)`: return value and the
bytes left in `to`. The range must lie inside the packet; on failure the helper clears `to`
and returns `-EFAULT` (-14). -/
def bpf_skb_load_bytes (skb : sk_buff) (offset len : Nat) : Int × List Nat :=
  if offset + len ≤ skb.len then (0, (List.range len).map (fun k => skb.data (offset + k) % 256))
  else (-14, List.replicate len 0)

/-- Modelled from the spec: the ConnectionKey (source address, source port, destination
address, destination port); the declaration of `connection_info_t` in
`common/connection_info.h` is not among the sources. -/
structure connection_info_t where
  s_addr : List Nat
  d_addr : List Nat
  s_port : Nat
  d_port : Nat
deriving DecidableEq, Repr

/-- The all-zero connection info `{0}`. -/
def connection_info_t.zero : connection_info_t :=
  { s_addr := List.replicate 16 0, d_addr := List.replicate 16 0, s_port := 0, d_port := 0 }

/-- Modelled from the spec: the TraceContext (trace id of 16 bytes, span id of 8 bytes,
timestamp) with the parent id and flags that travel with it; the declaration of `tp_info_t`
in `common/tp_info.h` is not among the sources. -/
structure tp_info_t where
  trace_id : List Nat
  span_id : List Nat
  parent_id : List Nat
  ts : Nat
  flags : Nat
deriving DecidableEq, Repr

/-- The all-zero trace context `{0}`. -/
def tp_info_t.zero : tp_info_t :=
  { trace_id := List.replicate 16 0, span_id := List.replicate 8 0,
    parent_id := List.replicate 8 0, ts := 0, flags := 0 }

/-- Modelled from the spec: the process identity carried by events; the declaration of
`pid_info` in `pid/types/pid_info.h` is not among the sources. -/
structure pid_info where
  host_pid : Nat
  user_pid : Nat
  ns : Nat
deriving DecidableEq, Repr

/-- Modelled from the spec: the value type of the `sock_pids` table, of which `handle_dns`
uses `p_info`, `p_key` and `id`; its declaration in `maps/sock_pids.h` is not among the
sources. -/
structure conn_pid_t where
  p_info : pid_info
  p_key : Nat
  id : Nat
deriving DecidableEq, Repr

/-- The struct `pid_connection_info_t` built by `handle_dns`: connection and host pid. -/
structure pid_connection_info_t where
  conn : connection_info_t
  pid : Nat
deriving DecidableEq, Repr

/-- The fields of `protocol_info_t` the parser uses. -/
structure protocol_info_t where
  ip_len : Nat
  l4_proto : Nat
deriving DecidableEq, Repr

/-- The event record `dns_req_t` with the fields `handle_dns` writes. -/
structure dns_req_t where
  conn : connection_info_t
  flags : Nat
  p_type : Nat
  len : Nat
  dns_q : Nat
  id : Nat
  ts : Nat
  tp : tp_info_t
  pid : pid_info
  buf : List Nat
deriving DecidableEq, Repr

/-- The collaborators of `handle_dns` that are not among the sources, and the target. -/
structure DnsEnv where
  /-- byte order of the target -/
  endian : Endian
  /-- the event kind `EVENT_DNS_REQUEST` -/
  EVENT_DNS_REQUEST : Nat
  /-- the function `sort_connection_info` -/
  sort_connection_info : connection_info_t → connection_info_t
  /-- the table `sock_pids` -/
  sock_pids : connection_info_t → Option conn_pid_t
  /-- whether `bpf_ringbuf_reserve` finds room -/
  ringbuf_reserve_ok : Bool
  /-- the two readings of `bpf_ktime_get_ns` -/
  ktime1 : Nat
  /-- second reading -/
  ktime2 : Nat
  /-- the trace context found in the reserved record before it is filled -/
  tp0 : tp_info_t
  /-- the function `find_trace_for_client_request_with_t_key`: found flag and context -/
  find_trace : pid_connection_info_t → Nat → conn_pid_t → tp_info_t → Bool × tp_info_t
  /-- the bytes `urand_bytes` draws for the span id -/
  urand_span : List Nat
  /-- the function `init_new_trace` -/
  init_new_trace : tp_info_t → tp_info_t
  /-- the function `read_skb_bytes` into `req->buf` -/
  read_skb_bytes : sk_buff → Nat → List Nat

/-- The field `doff` of the `struct tcphdr` loaded from offset `l4_off`: the upper four
bits of its byte 12. -/
def tcph_doff (skb : sk_buff) (l4_off : Nat) : Nat :=
  (bpf_skb_load_bytes skb l4_off sizeof_tcphdr).2.getD 12 0 / 16 % 16

/-- The value `__u8 tcp_header_len = tcph.doff * 4`. -/
def tcp_header_len (skb : sk_buff) (l4_off : Nat) : Nat :=
  (tcph_doff skb l4_off * 4) % 256

/-- The `switch (p_info->l4_proto)` of `handle_dns`: the offset `dns_off` with which the
function goes on, or `none` where it returns 0 at once. -/
def handle_dns_off (skb : sk_buff) (p_info : protocol_info_t) : Option Nat :=
  let l4_off := p_info.ip_len % U16
  if p_info.l4_proto = IPPROTO_UDP then
    some ((l4_off + sizeof_udphdr) % U16)
  else if p_info.l4_proto = IPPROTO_TCP then
    if (bpf_skb_load_bytes skb l4_off sizeof_tcphdr).1 ≠ 0 then none
    else
      let dns_off := (l4_off + tcp_header_len skb l4_off) % U16
      if skb.len ≤ dns_off then none
      else some ((dns_off + 2) % U16)
  else none

/-- The function `handle_dns(skb, conn, p_info)`: the return value and the events
submitted to the ring buffer. -/
def handle_dns (env : DnsEnv) (skb : sk_buff) (conn : connection_info_t)
    (p_info : protocol_info_t) : Nat × List dns_req_t :=
  match handle_dns_off skb p_info with
  | none => (0, [])
  | some dns_off =>
    let fl := (bpf_skb_load_bytes skb (dns_off + dnshdr_flags_off) 2).2
    let flags := u16_of_bytes env.endian (fl.getD 0 0) (fl.getD 1 0)
    let flags := bpf_ntohs env.endian flags
    let qr := dnsflags_qr env.endian flags
    if qr = k_dns_qr_query ∨ qr = k_dns_qr_resp then
      let idb := (bpf_skb_load_bytes skb (dns_off + dnshdr_id_off) 2).2
      let id := u16_of_bytes env.endian (idb.getD 0 0) (idb.getD 1 0)
      let orig_dport := conn.d_port
      let conn := env.sort_connection_info conn
      match env.sock_pids conn with
      | none => (0, [])
      | some conn_pid =>
        let p_conn : pid_connection_info_t := { conn := conn, pid := conn_pid.p_info.host_pid }
        if env.ringbuf_reserve_ok then
          let tp := { env.tp0 with ts := env.ktime2 }
          let r := env.find_trace p_conn orig_dport conn_pid tp
          let tp := if r.1 then { r.2 with span_id := env.urand_span }
                    else env.init_new_trace r.2
          (1, [{ conn := conn, flags := env.EVENT_DNS_REQUEST, p_type := skb.pkt_type,
                 len := skb.len, dns_q := qr, id := id, ts := env.ktime1, tp := tp,
                 pid := conn_pid.p_info, buf := env.read_skb_bytes skb dns_off }])
        else (1, [])
    else (0, [])

/-- The most significant bit of the first flags byte of the DNS header at `dns_off`:
the QR bit of RFC 1035, section 4.1.1. -/
def rfc1035_qr (skb : sk_buff) (dns_off : Nat) : Nat :=
  skb.data (dns_off + 2) % 256 / 128

/-- A collaborator environment for the examples: little-endian target, a `sock_pids`
table that knows every connection, room in the ring buffer. -/
def dnsEnvLE : DnsEnv :=
  { endian := .little, EVENT_DNS_REQUEST := 12,
    sort_connection_info := fun c => c,
    sock_pids := fun _ => some { p_info := { host_pid := 100, user_pid := 100, ns := 1 },
                                 p_key := 7, id := 9 },
    ringbuf_reserve_ok := true, ktime1 := 1000, ktime2 := 1001,
    tp0 := tp_info_t.zero,
    find_trace := fun _ _ _ tp => (false, tp),
    urand_span := List.replicate 8 1,
    init_new_trace := fun tp => tp,
    read_skb_bytes := fun skb off => (List.range 16).map (fun k => skb.data (off + k)) }

/-- The same environment on a big-endian target. -/
def dnsEnvBE : DnsEnv := { dnsEnvLE with endian := .big }

/-- A client connection to a DNS server. -/
def dnsConn : connection_info_t :=
  { s_addr := List.replicate 16 0, d_addr := List.replicate 16 0, s_port := 40000, d_port := 53 }

/-- A UDP DNS response (20-byte IP header, 8-byte UDP header) whose DNS header is
`12 34 81 80 00 01 00 01 00 00 00 00`: id 0x1234, QR = 1, RD = 1, RA = 1, RCODE = 0. -/
def dnsResponseSkb : sk_buff :=
  { len := 40, pkt_type := 0,
    data := Buf.ofList (List.replicate 28 0 ++
      [0x12, 0x34, 0x81, 0x80, 0x00, 0x01, 0x00, 0x01, 0x00, 0x00, 0x00, 0x00]) }

/-- Protocol info of a UDP packet behind a 20-byte IP header. -/
def udpInfo : protocol_info_t := { ip_len := 20, l4_proto := IPPROTO_UDP }

/-- Protocol info of a TCP packet behind a 20-byte IP header. -/
def tcpInfo : protocol_info_t := { ip_len := 20, l4_proto := IPPROTO_TCP }

/-- A TCP segment of the given total length with a 20-byte IP header and a 20-byte TCP
header (`doff = 5`), all other bytes zero. -/
def tcpSkb (len : Nat) : sk_buff :=
  { len := len, pkt_type := 0, data := Buf.ofList (List.replicate 32 0 ++ [0x50]) }

/-! ## Kernel helpers over user memory and hash tables -/

/-- Wrap-around modulus of `u64`. -/
def U64 : Nat := 2 ^ 64

/-- The memory of the traced process as a probe can read it: the pointer-sized word stored
at an address and the byte stored at an address, `none` where a read faults. -/
structure UserMem where
  word : Nat → Option Nat
  byte : Nat → Option Nat

/-- The kernel helpers `bpf_probe_read` and `bpf_probe_read_user` on a pointer-sized
object: return value and the object afterwards; a faulting read clears the object and
returns `-EFAULT` (-14). -/
def bpf_probe_read_word (mem : UserMem) (src : Nat) : Int × Nat :=
  match mem.word src with
  | some v => (0, v)
  | none => (-14, 0)

/-- The kernel helper `bpf_probe_read(dst, size, src)` on a byte range: return value and
the `size` bytes left in `dst`; a faulting read clears them and returns `-EFAULT` (-14). -/
def bpf_probe_read_bytes (mem : UserMem) (size src : Nat) : Int × List Nat :=
  if (List.range size).all (fun i => (mem.byte (src + i)).isSome) then
    (0, (List.range size).map (fun i => (mem.byte (src + i)).getD 0))
  else (-14, List.replicate size 0)

/-- Store of the bytes `bytes` at the start of the array `arr`. -/
def arr_write (arr bytes : List Nat) : List Nat :=
  bytes.take arr.length ++ arr.drop bytes.length

/-- First value bound to `k` in an association list. -/
def assoc_lookup {κ ν : Type} [DecidableEq κ] (k : κ) : List (κ × ν) → Option ν
  | [] => none
  | e :: es => if e.1 = k then some e.2 else assoc_lookup k es

/-- Replacement of the value of the first entry with key `k`. -/
def assoc_replace {κ ν : Type} [DecidableEq κ] (k : κ) (v : ν) : List (κ × ν) → List (κ × ν)
  | [] => []
  | e :: es => if e.1 = k then (k, v) :: es else e :: assoc_replace k v es

/-- Removal of the entries with key `k`. -/
def assoc_erase {κ ν : Type} [DecidableEq κ] (k : κ) (l : List (κ × ν)) : List (κ × ν) :=
  l.filter (fun e => decide (e.1 ≠ k))

/-- Modelled from the spec: a Correlation Store table, a keyed table with a fixed maximum
entry count in which insertion past capacity fails (capacity failure: not stored). The map
declarations (`ongoing_sql_queries` and the others of the Go tracer) are not among the
sources. -/
structure bpf_map (κ ν : Type) where
  max_entries : Nat
  entries : List (κ × ν)

/-- The kernel helper `bpf_map_lookup_elem`: the value stored for the key, if any. -/
def bpf_map_lookup_elem {κ ν : Type} [DecidableEq κ] (m : bpf_map κ ν) (k : κ) : Option ν :=
  assoc_lookup k m.entries

/-- The kernel helper `bpf_map_update_elem(map, key, value, BPF_ANY)` on a fixed-capacity
table: the table afterwards and the return value (0, or `-E2BIG` = -7 when a new key
finds the table full). -/
def bpf_map_update_elem {κ ν : Type} [DecidableEq κ] (m : bpf_map κ ν) (k : κ) (v : ν) :
    bpf_map κ ν × Int :=
  if (assoc_lookup k m.entries).isSome then
    ({ m with entries := assoc_replace k v m.entries }, 0)
  else if m.entries.length < m.max_entries then
    ({ m with entries := (k, v) :: m.entries }, 0)
  else (m, -7)

/-- The kernel helper `bpf_map_delete_elem`: the table afterwards and the return value
(0, or `-ENOENT` = -2 for an absent key). -/
def bpf_map_delete_elem {κ ν : Type} [DecidableEq κ] (m : bpf_map κ ν) (k : κ) :
    bpf_map κ ν × Int :=
  if (assoc_lookup k m.entries).isSome then
    ({ m with entries := assoc_erase k m.entries }, 0)
  else (m, -2)

/-- A store through the pointer that `bpf_map_lookup_elem` returned for `k`: the value of
that entry is replaced in place. -/
def bpf_map_store {κ ν : Type} [DecidableEq κ] (m : bpf_map κ ν) (k : κ) (v : ν) :
    bpf_map κ ν :=
  { m with entries := assoc_replace k v m.entries }

/-! ## `bpf/gotracer/go_sql.c`: SQL driver call -/

/-- Modelled from the spec: the ExecutionUnitId key of the Go tracer tables (goroutine
address and process id); the declaration of `go_addr_key_t` is not among the sources. -/
structure go_addr_key_t where
  pid : Nat
  addr : Nat
deriving DecidableEq, Repr

/-- The registers of a probe hit as the macros `GOROUTINE_PTR` and `GO_PARAM1`..`GO_PARAM9`
read them. -/
structure pt_regs where
  goroutine : Nat
  param : Nat → Nat

/-- The macro `GOROUTINE_PTR(ctx)`. -/
def GOROUTINE_PTR (ctx : pt_regs) : Nat := ctx.goroutine

/-- The macros `GO_PARAM1(ctx)` .. `GO_PARAM9(ctx)`. -/
def GO_PARAM (n : Nat) (ctx : pt_regs) : Nat := ctx.param n

/-- The symbolic field identifiers of the offset table that `go_sql.c` uses. -/
inductive go_offset where
  | _driverconn_ci_pos
  | _mysql_conn_type_off
  | _mysql_conn_cfg_pos
  | _mysql_config_addr_pos
deriving DecidableEq, Repr

/-- The in-flight record `sql_func_invocation_t`. -/
structure sql_func_invocation_t where
  start_monotime_ns : Nat
  sql_param : Nat
  query_len : Nat
  driver_conn_ptr : Nat
  conn : connection_info_t
  tp : tp_info_t
deriving DecidableEq, Repr

/-- The event record `sql_request_trace_t` with the fields `go_sql.c` writes; the arrays
`sql` and `hostname` are lists of their declared sizes. -/
structure sql_request_trace_t where
  type : Nat
  start_monotime_ns : Nat
  end_monotime_ns : Nat
  status : Nat
  tp : tp_info_t
  conn : connection_info_t
  pid : pid_info
  sql : List Nat
  hostname : List Nat
deriving DecidableEq, Repr

/-- What one probe hit of `go_sql.c` sees of its surroundings: the collaborators that are
not among the sources, the offset table and the user memory. -/
structure SqlEnv where
  /-- the reading of `bpf_ktime_get_ns` -/
  ktime : Nat
  /-- the function `go_addr_key_from_id` -/
  go_addr_key_from_id : Nat → go_addr_key_t
  /-- the function `client_trace_parent(goroutine_addr, &tp)` -/
  client_trace_parent : Nat → tp_info_t → tp_info_t
  /-- the function `task_pid` -/
  task_pid : pid_info
  /-- whether `bpf_ringbuf_reserve` finds room -/
  ringbuf_reserve_ok : Bool
  /-- the reserved record before it is filled; its arrays fix `sizeof(trace->sql)` and
  `sizeof(trace->hostname)` -/
  trace0 : sql_request_trace_t
  /-- the event kind `EVENT_SQL_CLIENT` -/
  EVENT_SQL_CLIENT : Nat
  /-- the memory of the traced process -/
  mem : UserMem
  /-- the function `go_offset_of` on the current offsets table; 0 is an unresolved offset -/
  go_offset_of : go_offset → Nat
  /-- the function `read_go_str(name, base_ptr, offset, field, max_size)`: success flag, the
  field afterwards and the addresses read -/
  read_go_str : UserMem → Nat → Nat → List Nat → Nat → Bool × List Nat × List Nat

/-- The function `get_mysql_conn_ptr(driver_conn_ptr)`: the pointer returned (0 is `NULL`)
and the addresses read from user memory, in order. -/
def get_mysql_conn_ptr (env : SqlEnv) (driver_conn_ptr : Nat) : Nat × List Nat :=
  if driver_conn_ptr = 0 then (0, [])
  else
    let ci_offset := env.go_offset_of ._driverconn_ci_pos
    if ci_offset = 0 then (0, [])
    else
      let a1 := (driver_conn_ptr + ci_offset) % U64
      let r1 := bpf_probe_read_word env.mem a1
      if r1.1 ≠ 0 then (0, [a1])
      else
        let mysql_type_addr := env.go_offset_of ._mysql_conn_type_off
        if mysql_type_addr = 0 then (0, [a1])
        else if r1.2 ≠ mysql_type_addr then (0, [a1])
        else
          let a2 := (driver_conn_ptr + ci_offset + 8) % U64
          let r2 := bpf_probe_read_word env.mem a2
          if r2.1 ≠ 0 ∨ r2.2 = 0 then (0, [a1, a2])
          else (r2.2, [a1, a2])

/-- The function `read_mysql_hostname_from_mysqlconn(mysql_conn_ptr, hostname, max_len)`:
the return value, the hostname array afterwards and the addresses read. -/
def read_mysql_hostname_from_mysqlconn (env : SqlEnv) (mysql_conn_ptr : Nat)
    (hostname : List Nat) (max_len : Nat) : Bool × List Nat × List Nat :=
  if mysql_conn_ptr = 0 then (false, hostname, [])
  else
    let a := (mysql_conn_ptr + env.go_offset_of ._mysql_conn_cfg_pos) % U64
    let r := bpf_probe_read_word env.mem a
    if r.1 ≠ 0 ∨ r.2 = 0 then (false, hostname, [a])
    else
      let g := env.read_go_str env.mem r.2 (env.go_offset_of ._mysql_config_addr_pos)
        hostname max_len
      if !g.1 then (false, g.2.1, a :: g.2.2)
      else (true, g.2.1, a :: g.2.2)

/-- The function `extract_sql_hostname(trace, driver_conn_ptr)`: the record afterwards and
the addresses read from user memory. -/
def extract_sql_hostname (env : SqlEnv) (trace : sql_request_trace_t)
    (driver_conn_ptr : Nat) : sql_request_trace_t × List Nat :=
  let trace := { trace with hostname := trace.hostname.set 0 0 }
  if driver_conn_ptr = 0 then (trace, [])
  else
    let p := get_mysql_conn_ptr env driver_conn_ptr
    if p.1 = 0 then (trace, p.2)
    else
      let r := read_mysql_hostname_from_mysqlconn env p.1 trace.hostname trace.hostname.length
      ({ trace with hostname := r.2.1 }, p.2 ++ r.2.2)

/-- The function `set_sql_info(goroutine_addr, driver_conn, sql_param, query_len)`: the
table `ongoing_sql_queries` afterwards. -/
def set_sql_info (env : SqlEnv) (m : bpf_map go_addr_key_t sql_func_invocation_t)
    (goroutine_addr driver_conn sql_param query_len : Nat) :
    bpf_map go_addr_key_t sql_func_invocation_t :=
  let invocation : sql_func_invocation_t :=
    { start_monotime_ns := env.ktime, sql_param := sql_param, query_len := query_len,
      driver_conn_ptr := driver_conn, conn := connection_info_t.zero, tp := tp_info_t.zero }
  let invocation := { invocation with tp := env.client_trace_parent goroutine_addr invocation.tp }
  let g_key := env.go_addr_key_from_id goroutine_addr
  (bpf_map_update_elem m g_key invocation).1

/-- The probe `obi_uprobe_queryDC`. -/
def obi_uprobe_queryDC (env : SqlEnv) (m : bpf_map go_addr_key_t sql_func_invocation_t)
    (ctx : pt_regs) : bpf_map go_addr_key_t sql_func_invocation_t :=
  set_sql_info env m (GOROUTINE_PTR ctx) (GO_PARAM 6 ctx) (GO_PARAM 8 ctx) (GO_PARAM 9 ctx)

/-- The probe `obi_uprobe_execDC`. -/
def obi_uprobe_execDC (env : SqlEnv) (m : bpf_map go_addr_key_t sql_func_invocation_t)
    (ctx : pt_regs) : bpf_map go_addr_key_t sql_func_invocation_t :=
  set_sql_info env m (GOROUTINE_PTR ctx) (GO_PARAM 4 ctx) (GO_PARAM 6 ctx) (GO_PARAM 7 ctx)

/-- The length `obi_uprobe_queryReturn` copies: `query_len` clamped to `sizeof(trace->sql)`. -/
def clamp_query_len (query_len sizeof_sql : Nat) : Nat :=
  if query_len > sizeof_sql then sizeof_sql else query_len

/-- The record that `obi_uprobe_queryReturn` fills in and submits for an in-flight
invocation (the body of its `if (trace)` branch). -/
def queryReturn_trace (env : SqlEnv) (invocation : sql_func_invocation_t) (ctx : pt_regs) :
    sql_request_trace_t :=
  let trace := env.trace0
  let sizeof_sql := trace.sql.length
  let trace := { trace with pid := env.task_pid }
  let trace := { trace with type := env.EVENT_SQL_CLIENT }
  let trace := { trace with start_monotime_ns := invocation.start_monotime_ns }
  let trace := { trace with end_monotime_ns := env.ktime }
  let resp_ptr := GO_PARAM 1 ctx
  let trace := { trace with status := if resp_ptr = 0 then 1 else 0 }
  let trace := { trace with tp := invocation.tp }
  let query_len := clamp_query_len invocation.query_len sizeof_sql
  let trace := { trace with
    sql := arr_write trace.sql (bpf_probe_read_bytes env.mem query_len invocation.sql_param).2 }
  let trace := if query_len < sizeof_sql then { trace with sql := trace.sql.set query_len 0 }
               else trace
  let trace := { trace with conn := invocation.conn }
  (extract_sql_hostname env trace invocation.driver_conn_ptr).1

/-- The probe `obi_uprobe_queryReturn`: the table `ongoing_sql_queries` afterwards and the
events submitted to the ring buffer. -/
def obi_uprobe_queryReturn (env : SqlEnv) (m : bpf_map go_addr_key_t sql_func_invocation_t)
    (ctx : pt_regs) : bpf_map go_addr_key_t sql_func_invocation_t × List sql_request_trace_t :=
  let goroutine_addr := GOROUTINE_PTR ctx
  let g_key := env.go_addr_key_from_id goroutine_addr
  match bpf_map_lookup_elem m g_key with
  | none => (m, [])
  | some invocation =>
    let m := (bpf_map_delete_elem m g_key).1
    if env.ringbuf_reserve_ok then (m, [queryReturn_trace env invocation ctx])
    else (m, [])

/-- The string an array of characters holds is empty: its first character is NUL. -/
def is_empty_str (s : List Nat) : Bool := s.getD 0 0 == 0

/-- Modelled from the spec: a Go string field reader, a multi-hop read (string header at
`base_ptr + offset`: data pointer, then length; then the bytes) with every step fallible and
a failed step leaving the output as it was; at most `max_size` bytes are copied and a NUL
follows them when they are fewer than `max_size`. The function `read_go_str` of
`gotracer/go_str.h` is not among the sources. -/
def read_go_str_model (mem : UserMem) (base_ptr offset : Nat) (field : List Nat)
    (max_size : Nat) : Bool × List Nat × List Nat :=
  let a1 := (base_ptr + offset) % U64
  let p := bpf_probe_read_word mem a1
  if p.1 ≠ 0 then (false, field, [a1])
  else
    let a2 := (base_ptr + offset + 8) % U64
    let l := bpf_probe_read_word mem a2
    if l.1 ≠ 0 then (false, field, [a1, a2])
    else
      let size := if max_size < l.2 then max_size else l.2
      let b := bpf_probe_read_bytes mem size p.2
      if b.1 ≠ 0 then (false, field, [a1, a2, p.2])
      else
        let field := arr_write field b.2
        let field := if size < max_size then field.set size 0 else field
        (true, field, [a1, a2, p.2])

/-- A process image for the examples. A `driverConn` at 0x1000 whose `ci` interface (at
offset 0x10) has the `mysqlConn` type pointer 0x5000 and the data pointer 0x2000; the
`mysqlConn` at 0x2000 has an unrelated pointer 0x3000 in its first word and its `cfg`
pointer 0x6000 at offset 0x40; the `Config` at 0x6000 has its `Addr` string `db:3306` at
offset 0x20; the object at 0x3000 has the string `root` at offset 0x20. The query text
`SELECT * FROM t` is at 0x7000 and `SELECT 1` at 0x7100. -/
def sqlMem : UserMem :=
  { word := fun a =>
      if a = 0x1010 then some 0x5000
      else if a = 0x1018 then some 0x2000
      else if a = 0x2000 then some 0x3000
      else if a = 0x2040 then some 0x6000
      else if a = 0x3020 then some 0x4000
      else if a = 0x3028 then some 4
      else if a = 0x6020 then some 0x4100
      else if a = 0x6028 then some 7
      else none
    byte := fun a =>
      if 0x4000 ≤ a ∧ a < 0x4004 then some ((bytesOf "root").getD (a - 0x4000) 0)
      else if 0x4100 ≤ a ∧ a < 0x4107 then some ((bytesOf "db:3306").getD (a - 0x4100) 0)
      else if 0x7000 ≤ a ∧ a < 0x700f then some ((bytesOf "SELECT * FROM t").getD (a - 0x7000) 0)
      else if 0x7100 ≤ a ∧ a < 0x7108 then some ((bytesOf "SELECT 1").getD (a - 0x7100) 0)
      else none }

/-- A reserved record with arrays of 8 bytes holding stale data. -/
def sqlTrace0 : sql_request_trace_t :=
  { type := 0xaa, start_monotime_ns := 0xaa, end_monotime_ns := 0xaa, status := 0xaa,
    tp := tp_info_t.zero, conn := connection_info_t.zero,
    pid := { host_pid := 0, user_pid := 0, ns := 0 },
    sql := List.replicate 8 0xaa, hostname := List.replicate 8 0xaa }

/-- The surroundings of a probe hit at time `t` in the example process, with every offset
of the table resolved. -/
def sqlEnvAt (t : Nat) : SqlEnv :=
  { ktime := t,
    go_addr_key_from_id := fun a => { pid := 100, addr := a },
    client_trace_parent := fun a tp => { tp with span_id := List.replicate 8 (a % 256) },
    task_pid := { host_pid := 100, user_pid := 100, ns := 1 },
    ringbuf_reserve_ok := true, trace0 := sqlTrace0, EVENT_SQL_CLIENT := 5, mem := sqlMem,
    go_offset_of := fun f =>
      match f with
      | ._driverconn_ci_pos => 0x10
      | ._mysql_conn_type_off => 0x5000
      | ._mysql_conn_cfg_pos => 0x40
      | ._mysql_config_addr_pos => 0x20,
    read_go_str := read_go_str_model }

/-- The same surroundings with the offset of `mysqlConn.cfg` unresolved. -/
def sqlEnvNoCfg : SqlEnv :=
  { sqlEnvAt 30 with
    go_offset_of := fun f =>
      match f with
      | ._driverconn_ci_pos => 0x10
      | ._mysql_conn_type_off => 0x5000
      | ._mysql_conn_cfg_pos => 0
      | ._mysql_config_addr_pos => 0x20 }

/-- An empty table `ongoing_sql_queries` of capacity 4. -/
def sqlMapEmpty : bpf_map go_addr_key_t sql_func_invocation_t :=
  { max_entries := 4, entries := [] }

/-- Registers of a `queryDC` hit on goroutine 0xc000: driver connection 0x1000, query
text at 0x7000 of length 15. -/
def regsQueryDC : pt_regs :=
  { goroutine := 0xc000,
    param := fun n => if n = 6 then 0x1000 else if n = 8 then 0x7000 else if n = 9 then 15 else 0 }

/-- Registers of an `execDC` hit on goroutine 0xc000: driver connection 0x1000, query
text at 0x7100 of length 8. -/
def regsExecDC : pt_regs :=
  { goroutine := 0xc000,
    param := fun n => if n = 4 then 0x1000 else if n = 6 then 0x7100 else if n = 7 then 8 else 0 }

/-- Registers of the return probe on goroutine 0xc000 with a non-null result. -/
def regsReturn : pt_regs :=
  { goroutine := 0xc000, param := fun n => if n = 1 then 0x9000 else 0 }

/-- The in-flight record that `regsQueryDC` leaves at time 10. -/
def sqlInvQuery : sql_func_invocation_t :=
  { start_monotime_ns := 10, sql_param := 0x7000, query_len := 15, driver_conn_ptr := 0x1000,
    conn := connection_info_t.zero,
    tp := { tp_info_t.zero with span_id := List.replicate 8 0 } }

/-! ## `bpf/shared/obi_ctx.h`: trace context cache -/

/-- The macro `TRACE_ID_SIZE_BYTES`. -/
def TRACE_ID_SIZE_BYTES : Nat := 16

/-- The macro `SPAN_ID_SIZE_BYTES`. -/
def SPAN_ID_SIZE_BYTES : Nat := 8

/-- The struct `obi_ctx_info_t`. -/
structure obi_ctx_info_t where
  trace_id : List Nat
  span_id : List Nat
deriving DecidableEq, Repr

/-- The function `bpf_memcpy(dst, src, n)` on arrays: the first `n` bytes of `dst` become
those of `src`. -/
def bpf_memcpy (dst src : List Nat) (n : Nat) : List Nat :=
  src.take n ++ dst.drop n

/-- Modelled from the spec: the Trace Context Cache store, a table with a fixed maximum entry
count that never grows beyond it and makes room by evicting entries; the entries are kept
most recently used first. Which entries an update evicts is decided by the kernel's
`BPF_MAP_TYPE_LRU_HASH`, which is not among the sources, and is an argument of
`lru_update_elem`. -/
structure lru_map (κ ν : Type) where
  max_entries : Nat
  entries : List (κ × ν)

/-- The kernel helper `bpf_map_lookup_elem` on the LRU table: the value found and the table
afterwards, in which the entry found has become the most recently used. -/
def lru_lookup_elem {κ ν : Type} [DecidableEq κ] (m : lru_map κ ν) (k : κ) :
    Option ν × lru_map κ ν :=
  match assoc_lookup k m.entries with
  | none => (none, m)
  | some v => (some v, { m with entries := (k, v) :: assoc_erase k m.entries })

/-- The kernel helper `bpf_map_update_elem(map, key, value, BPF_ANY)` on the LRU table: the
table afterwards and the return value. The kernel takes a free node before it looks the key
up, and to obtain one it may evict entries of its choosing: it frees a batch of up to 128
least recently used nodes at a time, also when the key is already present and when the
table holds fewer than `max_entries` entries. `evict` lists the keys whose entries this
call evicts and `node_ok` tells whether a node was obtained. Without a node, or where the
entries left would not leave room for the new one, the call fails with `-ENOMEM` (-12) and
changes nothing; otherwise the entries evicted and any old entry of the key are gone and
the new entry is the most recently used one. -/
def lru_update_elem {κ ν : Type} [DecidableEq κ] (node_ok : Bool) (evict : List κ)
    (m : lru_map κ ν) (k : κ) (v : ν) : lru_map κ ν × Int :=
  if !node_ok then (m, -12)
  else
    let kept := m.entries.filter (fun e => decide (e.1 ∉ evict))
    let rest := assoc_erase k kept
    if rest.length < m.max_entries then ({ m with entries := (k, v) :: rest }, 0)
    else (m, -12)

/-- The kernel helper `bpf_map_delete_elem` on the LRU table. -/
def lru_delete_elem {κ ν : Type} [DecidableEq κ] (m : lru_map κ ν) (k : κ) :
    lru_map κ ν × Int :=
  if (assoc_lookup k m.entries).isSome then
    ({ m with entries := assoc_erase k m.entries }, 0)
  else (m, -2)

/-- The `max_entries` of the map `traces_ctx_v1`. -/
def traces_ctx_v1_max_entries : Nat := 1 <<< 14

/-- The function `obi_ctx__get(pid_tgid)` on the table `traces_ctx_v1`: the entry found
(`none` is `NULL`) and the table afterwards. -/
def obi_ctx__get (traces_ctx_v1 : lru_map Nat obi_ctx_info_t) (pid_tgid : Nat) :
    Option obi_ctx_info_t × lru_map Nat obi_ctx_info_t :=
  lru_lookup_elem traces_ctx_v1 pid_tgid

/-- The function `obi_ctx__set(pid_tgid, info)` on the table `traces_ctx_v1`: the table
afterwards and the return value; `node_ok` and `evict` are what the kernel does within the
`bpf_map_update_elem` call (see `lru_update_elem`). -/
def obi_ctx__set (node_ok : Bool) (evict : List Nat) (traces_ctx_v1 : lru_map Nat obi_ctx_info_t)
    (pid_tgid : Nat) (info : tp_info_t) : lru_map Nat obi_ctx_info_t × Int :=
  let obi_info : obi_ctx_info_t :=
    { trace_id := List.replicate TRACE_ID_SIZE_BYTES 0,
      span_id := List.replicate SPAN_ID_SIZE_BYTES 0 }
  let obi_info :=
    { obi_info with trace_id := bpf_memcpy obi_info.trace_id info.trace_id TRACE_ID_SIZE_BYTES }
  let obi_info :=
    { obi_info with span_id := bpf_memcpy obi_info.span_id info.span_id SPAN_ID_SIZE_BYTES }
  lru_update_elem node_ok evict traces_ctx_v1 pid_tgid obi_info

/-- The function `obi_ctx__del(pid_tgid)` on the table `traces_ctx_v1`. -/
def obi_ctx__del (traces_ctx_v1 : lru_map Nat obi_ctx_info_t) (pid_tgid : Nat) :
    lru_map Nat obi_ctx_info_t × Int :=
  lru_delete_elem traces_ctx_v1 pid_tgid

/-- A trace context for the examples. -/
def sampleTp : tp_info_t :=
  { trace_id := [0x0a, 0xf7, 0x65, 0x19, 0x16, 0xcd, 0x43, 0xdd,
                 0x84, 0x48, 0xeb, 0x21, 0x1c, 0x80, 0x31, 0x9c],
    span_id := [0xb7, 0xad, 0x6b, 0x71, 0x69, 0x20, 0x33, 0x31],
    parent_id := List.replicate 8 0, ts := 77, flags := 1 }

/-- A cache entry for the examples. -/
def sampleInfo : obi_ctx_info_t :=
  { trace_id := List.replicate 16 1, span_id := List.replicate 8 2 }

/-- A table `traces_ctx_v1` in which all `1 << 14` entries are taken, by the unit ids
`0 .. 16383`, the id 16383 being the least recently used. -/
def fullCtxCache : lru_map Nat obi_ctx_info_t :=
  { max_entries := traces_ctx_v1_max_entries,
    entries := (List.range traces_ctx_v1_max_entries).map (fun i => (i, sampleInfo)) }

/-- An empty table `traces_ctx_v1`. -/
def emptyCtxCache : lru_map Nat obi_ctx_info_t :=
  { max_entries := traces_ctx_v1_max_entries, entries := [] }

/-- The batch of the 128 least recently used unit ids of `fullCtxCache`. -/
def lruBatch : List Nat := List.range' 16256 128

/-- A table `traces_ctx_v1` holding the entries of the unit ids 1, 2 and 3. -/
def smallCtxCache : lru_map Nat obi_ctx_info_t :=
  { max_entries := traces_ctx_v1_max_entries,
    entries := [(1, sampleInfo), (2, sampleInfo),
                (3, { trace_id := List.replicate 16 3, span_id := List.replicate 8 4 })] }

/-! ## `bpf/gotracer/go_net.c`: socket descriptor correlation -/

/-- Modelled from the spec: the in-flight record of an RPC transport, of which
`obi_uprobe_netFdRead` uses the connection info; the declaration of `grpc_transports_t` is
not among the sources. -/
structure grpc_transports_t where
  type : Nat
  conn : connection_info_t
deriving DecidableEq, Repr

/-- Modelled from the spec: the in-flight record of a Mongo request (start timestamp,
connection info, trace context), of which `obi_uprobe_netFdRead` uses the connection info;
the declaration of `mongo_go_client_req_t` is not among the sources. -/
structure mongo_go_client_req_t where
  start_monotime_ns : Nat
  conn : connection_info_t
  tp : tp_info_t
deriving DecidableEq, Repr

/-- The tables `obi_uprobe_netFdRead` works on. -/
structure NetState where
  ongoing_grpc_operate_headers : bpf_map go_addr_key_t Nat
  ongoing_grpc_transports : bpf_map Nat grpc_transports_t
  ongoing_sql_queries : bpf_map go_addr_key_t sql_func_invocation_t
  ongoing_mongo_requests : bpf_map go_addr_key_t mongo_go_client_req_t
  ongoing_server_connections : bpf_map go_addr_key_t connection_info_t

/-- The collaborators of `obi_uprobe_netFdRead` that are not among the sources. -/
structure NetEnv where
  /-- the function `go_addr_key_from_id` -/
  go_addr_key_from_id : Nat → go_addr_key_t
  /-- the function `get_conn_info_from_fd(fd_ptr, info)`: the connection info afterwards
  (the return value is not used) -/
  get_conn_info_from_fd : Nat → connection_info_t → connection_info_t

/-- The probe `obi_uprobe_netFdRead`: the tables afterwards. -/
def obi_uprobe_netFdRead (env : NetEnv) (st : NetState) (ctx : pt_regs) : NetState :=
  let goroutine_addr := GOROUTINE_PTR ctx
  let g_key := env.go_addr_key_from_id goroutine_addr
  match bpf_map_lookup_elem st.ongoing_grpc_operate_headers g_key with
  | some tr =>
    match bpf_map_lookup_elem st.ongoing_grpc_transports tr with
    | some t =>
      if t.conn.d_port = 0 ∧ t.conn.s_port = 0 then
        let fd_ptr := GO_PARAM 1 ctx
        let t1 : grpc_transports_t := { t with conn := env.get_conn_info_from_fd fd_ptr t.conn }
        { st with ongoing_grpc_transports := bpf_map_store st.ongoing_grpc_transports tr t1 }
      else st
    | none => st
  | none =>
    match bpf_map_lookup_elem st.ongoing_sql_queries g_key with
    | some sql_conn =>
      let fd_ptr := GO_PARAM 1 ctx
      let sql_conn1 : sql_func_invocation_t :=
        { sql_conn with conn := env.get_conn_info_from_fd fd_ptr sql_conn.conn }
      { st with ongoing_sql_queries := bpf_map_store st.ongoing_sql_queries g_key sql_conn1 }
    | none =>
      match bpf_map_lookup_elem st.ongoing_mongo_requests g_key with
      | some mongo_conn =>
        let fd_ptr := GO_PARAM 1 ctx
        let mongo_conn1 : mongo_go_client_req_t :=
          { mongo_conn with conn := env.get_conn_info_from_fd fd_ptr mongo_conn.conn }
        { st with
          ongoing_mongo_requests := bpf_map_store st.ongoing_mongo_requests g_key mongo_conn1 }
      | none =>
        match bpf_map_lookup_elem st.ongoing_server_connections g_key with
        | some conn =>
          if conn.d_port = 0 ∧ conn.s_port = 0 then
            let fd_ptr := GO_PARAM 1 ctx
            let conn1 := env.get_conn_info_from_fd fd_ptr conn
            { st with
              ongoing_server_connections :=
                bpf_map_store st.ongoing_server_connections g_key conn1 }
          else st
        | none => st

/-- A connection info already filled in: local port 40000, remote port 3306. -/
def knownConn : connection_info_t :=
  { s_addr := List.replicate 15 0 ++ [1], d_addr := List.replicate 15 0 ++ [2],
    s_port := 40000, d_port := 3306 }

/-- The connection info of the socket behind the descriptor read in the examples: local
port 50000, remote port 5432. -/
def fdConn : connection_info_t :=
  { s_addr := List.replicate 15 0 ++ [1], d_addr := List.replicate 15 0 ++ [3],
    s_port := 50000, d_port := 5432 }

/-- Collaborators for the examples: a non-null descriptor resolves to `fdConn`. -/
def netEnv : NetEnv :=
  { go_addr_key_from_id := fun a => { pid := 100, addr := a },
    get_conn_info_from_fd := fun fd info => if fd = 0 then info else fdConn }

/-- Registers of a `netFdRead` hit on goroutine 0xc000 with descriptor pointer 0x8000. -/
def regsFdRead : pt_regs :=
  { goroutine := 0xc000, param := fun n => if n = 1 then 0x8000 else 0 }

/-- Tables in which goroutine 0xc000 has only a pending SQL invocation, its connection
info already filled in. -/
def netStateSql : NetState :=
  { ongoing_grpc_operate_headers := { max_entries := 4, entries := [] },
    ongoing_grpc_transports := { max_entries := 4, entries := [] },
    ongoing_sql_queries := { max_entries := 4, entries :=
      [({ pid := 100, addr := 0xc000 }, { sqlInvQuery with conn := knownConn })] },
    ongoing_mongo_requests := { max_entries := 4, entries := [] },
    ongoing_server_connections := { max_entries := 4, entries := [] } }

/-- Tables in which goroutine 0xc000 has only a pending Mongo request, its connection
info already filled in. -/
def netStateMongo : NetState :=
  { ongoing_grpc_operate_headers := { max_entries := 4, entries := [] },
    ongoing_grpc_transports := { max_entries := 4, entries := [] },
    ongoing_sql_queries := { max_entries := 4, entries := [] },
    ongoing_mongo_requests := { max_entries := 4, entries :=
      [({ pid := 100, addr := 0xc000 },
        { start_monotime_ns := 10, conn := knownConn, tp := tp_info_t.zero })] },
    ongoing_server_connections := { max_entries := 4, entries := [] } }

/-! ## Marker criterion and scan trace of the header scanner -/

/-- The twelve bytes `p[1..12]` of a 13-byte window. -/
def window_tail (p : Buf) : List Nat := (List.range 12).map (fun i => p (i + 1))

/-- The match criterion in the words of the specification: the first byte is `T` or `t`
and the remaining twelve bytes are exactly `raceparent: `. -/
def marker_criterion_spec (p : Buf) : Bool :=
  ((p 0 == 'T'.toNat) || (p 0 == 't'.toNat)) && (window_tail p == bytesOf "raceparent: ")

/-- A window holding the camel-case spelling `TraceParent: `. -/
def camelTpBuf : Buf := Buf.ofList (bytesOf "TraceParent: ")

/-- A request whose traceparent header starts at offset 16, after the request line. -/
def midTpBuf : Buf :=
  Buf.ofList (bytesOf
    "GET / HTTP/1.1\r\nTraceparent: 00-0af7651916cd43dd8448eb211c80319c-b7ad6b7169203331-01\r\n\r\n")

/-- The callback `tp_match` run on a context that carries, besides `callback_ctx`, the list
of the offsets at which `is_traceparent` has been evaluated so far. -/
def tp_match_log (index : Nat) (st : callback_ctx × List Nat) : (callback_ctx × List Nat) × Nat :=
  if index ≥ TRACE_BUF_SIZE - TRACE_PARENT_HEADER_LEN then (st, 1)
  else
    let s := st.1.buf.shift index
    if is_traceparent s then (({ st.1 with pos := index }, st.2 ++ [index]), 1)
    else ((st.1, st.2 ++ [index]), 0)

/-- The function `bpf_strstr_tp_loop` with its trace: the result and the offsets at which
the marker was compared, in order. -/
def bpf_strstr_tp_loop_traced (g_bpf_traceparent_enabled : Bool) (buf : Buf) (buf_len : Nat) :
    Option Nat × List Nat :=
  if !g_bpf_traceparent_enabled then (none, [])
  else
    let data : callback_ctx := { buf := buf, pos := 0 }
    let nr_loops := buf_len % U32
    let st := (bpf_loop nr_loops tp_match_log (data, []) 0).1
    let data := st.1
    if data.pos ≠ 0 then
      if data.pos > TRACE_BUF_SIZE - TRACE_PARENT_HEADER_LEN then (none, st.2)
      else (some data.pos, st.2)
    else (none, st.2)

/-- The loop of `bpf_strstr_tp_loop__legacy` with its trace, from index `i` with `r`
indices left: the result and the offsets at which the marker was compared. -/
def legacy_scan_traced (buf : Buf) : Nat → Nat → Option Nat × List Nat
  | 0, _ => (none, [])
  | r + 1, i =>
    if is_traceparent (buf.shift i) then (some i, [i])
    else ((legacy_scan_traced buf r (i + 1)).1, i :: (legacy_scan_traced buf r (i + 1)).2)

/-- The function `bpf_strstr_tp_loop__legacy` with its trace. -/
def bpf_strstr_tp_loop__legacy_traced (g_bpf_traceparent_enabled : Bool) (buf : Buf)
    (_buf_len : Nat) : Option Nat × List Nat :=
  if !g_bpf_traceparent_enabled then (none, [])
  else legacy_scan_traced buf k_besteffort_max_loops 0

/-- Protocol info of an ICMP packet behind a 20-byte IP header. -/
def icmpInfo : protocol_info_t := { ip_len := 20, l4_proto := 1 }

/-- The surroundings of a probe hit at time 30 in the example process when the offset table
names another driver type (0x5555) than the one the connection has (0x5000). -/
def sqlEnvOtherDriver : SqlEnv :=
  { sqlEnvAt 30 with
    go_offset_of := fun f =>
      match f with
      | ._driverconn_ci_pos => 0x10
      | ._mysql_conn_type_off => 0x5555
      | ._mysql_conn_cfg_pos => 0x40
      | ._mysql_config_addr_pos => 0x20 }

/-- Tables in which goroutine 0xc000 has both a gRPC operate-headers entry (transport
0x7777, connection info not yet known) and a pending SQL invocation. -/
def netStateGrpcSql : NetState :=
  { ongoing_grpc_operate_headers :=
      { max_entries := 4, entries := [({ pid := 100, addr := 0xc000 }, 0x7777)] },
    ongoing_grpc_transports :=
      { max_entries := 4, entries := [(0x7777, { type := 1, conn := connection_info_t.zero })] },
    ongoing_sql_queries := { max_entries := 4, entries :=
      [({ pid := 100, addr := 0xc000 }, sqlInvQuery)] },
    ongoing_mongo_requests := { max_entries := 4, entries := [] },
    ongoing_server_connections := { max_entries := 4, entries := [] } }

/-- Tables without any entry. -/
def netStateEmpty : NetState :=
  { ongoing_grpc_operate_headers := { max_entries := 4, entries := [] },
    ongoing_grpc_transports := { max_entries := 4, entries := [] },
    ongoing_sql_queries := { max_entries := 4, entries := [] },
    ongoing_mongo_requests := { max_entries := 4, entries := [] },
    ongoing_server_connections := { max_entries := 4, entries := [] } }

/-- A table `ongoing_sql_queries` of capacity 2 whose two slots are taken by the pending
invocations of two other goroutines. -/
def sqlMapFull : bpf_map go_addr_key_t sql_func_invocation_t :=
  { max_entries := 2,
    entries := [({ pid := 100, addr := 0xa000 }, sqlInvQuery),
                ({ pid := 100, addr := 0xb000 }, sqlInvQuery)] }

/-- The function `handle_dns(skb, conn, p_info)` with its trace: the return value and the
events, and the packet offsets passed to `bpf_skb_load_bytes` and `read_skb_bytes`, in the
order of the calls (the TCP header load at `l4_off` first, for a TCP packet). -/
def handle_dns_traced (env : DnsEnv) (skb : sk_buff) (conn : connection_info_t)
    (p_info : protocol_info_t) : (Nat × List dns_req_t) × List Nat :=
  let l4_off := p_info.ip_len % U16
  let log : List Nat := if p_info.l4_proto = IPPROTO_TCP then [l4_off] else []
  match handle_dns_off skb p_info with
  | none => ((0, []), log)
  | some dns_off =>
    let log := log ++ [dns_off + dnshdr_flags_off]
    let fl := (bpf_skb_load_bytes skb (dns_off + dnshdr_flags_off) 2).2
    let flags := u16_of_bytes env.endian (fl.getD 0 0) (fl.getD 1 0)
    let flags := bpf_ntohs env.endian flags
    let qr := dnsflags_qr env.endian flags
    if qr = k_dns_qr_query ∨ qr = k_dns_qr_resp then
      let log := log ++ [dns_off + dnshdr_id_off]
      let idb := (bpf_skb_load_bytes skb (dns_off + dnshdr_id_off) 2).2
      let id := u16_of_bytes env.endian (idb.getD 0 0) (idb.getD 1 0)
      let orig_dport := conn.d_port
      let conn := env.sort_connection_info conn
      match env.sock_pids conn with
      | none => ((0, []), log)
      | some conn_pid =>
        let p_conn : pid_connection_info_t := { conn := conn, pid := conn_pid.p_info.host_pid }
        if env.ringbuf_reserve_ok then
          let tp := { env.tp0 with ts := env.ktime2 }
          let r := env.find_trace p_conn orig_dport conn_pid tp
          let tp := if r.1 then { r.2 with span_id := env.urand_span }
                    else env.init_new_trace r.2
          ((1, [{ conn := conn, flags := env.EVENT_DNS_REQUEST, p_type := skb.pkt_type,
                  len := skb.len, dns_q := qr, id := id, ts := env.ktime1, tp := tp,
                  pid := conn_pid.p_info, buf := env.read_skb_bytes skb dns_off }]),
            log ++ [dns_off])
        else ((1, []), log)
    else ((0, []), log)

/-- The `u16` that `bpf_skb_load_bytes(skb, off + offsetof(struct dnshdr, id), &id, 2)`
leaves in `id` for a DNS header at packet offset `off`. -/
def dns_id_at (env : DnsEnv) (skb : sk_buff) (off : Nat) : Nat :=
  u16_of_bytes env.endian ((bpf_skb_load_bytes skb (off + dnshdr_id_off) 2).2.getD 0 0)
    ((bpf_skb_load_bytes skb (off + dnshdr_id_off) 2).2.getD 1 0)

/-- The member `qr` after the flags of a DNS header at packet offset `off` have been loaded
with `bpf_skb_load_bytes(skb, off + offsetof(struct dnshdr, flags), ...)` and converted
with `bpf_ntohs`. -/
def dns_qr_at (env : DnsEnv) (skb : sk_buff) (off : Nat) : Nat :=
  dnsflags_qr env.endian (bpf_ntohs env.endian (u16_of_bytes env.endian
    ((bpf_skb_load_bytes skb (off + dnshdr_flags_off) 2).2.getD 0 0)
    ((bpf_skb_load_bytes skb (off + dnshdr_flags_off) 2).2.getD 1 0)))

/-! # Theorems -/

/-! ### Proofs: hex codec -/

set_option maxRecDepth 100000 in
theorem decode_hex_byte_hex :
    ∀ p < 256, decode_hex_byte (hex.getD ((p >>> 4) &&& 0xff) 0) (hex.getD (p &&& 0x0f) 0) = p := by
  decide

theorem encode_hex_loop_spec (src : Buf) (n : Nat) (hn : 2 * n < U32) :
    ∀ (fuel i : Nat) (dst : Buf), i ≤ n → n - i ≤ fuel →
      ∃ enc, encode_hex_loop src n fuel i (2 * i) dst = some enc ∧
        (∀ k, i ≤ k → k < n →
          enc (2 * k) = hex.getD ((src k >>> 4) &&& 0xff) 0 ∧
          enc (2 * k + 1) = hex.getD (src k &&& 0x0f) 0) ∧
        (∀ m, (m < 2 * i ∨ 2 * n ≤ m) → enc m = dst m) := by
  intro fuel
  induction fuel with
  | zero =>
    intro i dst hi hf
    have hin : ¬ i < n := by omega
    exact ⟨dst, by simp [encode_hex_loop, hin], fun k h1 h2 => by omega, fun _ _ => rfl⟩
  | succ fuel ih =>
    intro i dst hi hf
    by_cases hin : i < n
    · have h1 : (2 * i + 1) % U32 = 2 * i + 1 := Nat.mod_eq_of_lt (by omega)
      have h2 : (2 * i + 1 + 1) % U32 = 2 * (i + 1) := by
        rw [Nat.mod_eq_of_lt (by omega)]; ring
      have h3 : (i + 1) % U32 = i + 1 := Nat.mod_eq_of_lt (by omega)
      obtain ⟨enc, he, hk, hm⟩ := ih (i + 1)
        ((dst.write (2 * i) (hex.getD ((src i >>> 4) &&& 0xff) 0)).write (2 * i + 1)
          (hex.getD (src i &&& 0x0f) 0)) (by omega) (by omega)
      refine ⟨enc, ?_, ?_, ?_⟩
      · simp only [encode_hex_loop, hin, if_true, h1, h2, h3]
        exact he
      · intro k hik hkn
        by_cases hki : k = i
        · subst hki
          have e0 := hm (2 * k) (Or.inl (by omega))
          have e1 := hm (2 * k + 1) (Or.inl (by omega))
          simp only [Buf.write] at e0 e1
          constructor
          · rw [e0]; simp
          · rw [e1]; simp
        · exact hk k (by omega) hkn
      · intro m hmm
        have e := hm m (by omega)
        rw [e]
        simp only [Buf.write]
        have : m ≠ 2 * i + 1 := by omega
        have : m ≠ 2 * i := by omega
        simp [*]
    · exact ⟨dst, by simp [encode_hex_loop, hin], fun k h1 h2 => by omega, fun _ _ => rfl⟩

theorem decode_hex_loop_spec (src : Buf) (n : Nat) (hn : 2 * n < U32) :
    ∀ (fuel t : Nat) (dst : Buf), t ≤ n → n - t ≤ fuel →
      ∃ dec, decode_hex_loop src (2 * n) fuel (2 * t + 1) t dst = some dec ∧
        (∀ k, t ≤ k → k < n → dec k = decode_hex_byte (src (2 * k)) (src (2 * k + 1))) ∧
        (∀ m, (m < t ∨ n ≤ m) → dec m = dst m) := by
  intro fuel
  induction fuel with
  | zero =>
    intro t dst ht hf
    have hin : ¬ 2 * t + 1 < 2 * n := by omega
    exact ⟨dst, by simp [decode_hex_loop, hin], fun k h1 h2 => by omega, fun _ _ => rfl⟩
  | succ fuel ih =>
    intro t dst ht hf
    by_cases hin : 2 * t + 1 < 2 * n
    · have hU : U32 = 4294967296 := by decide
      have h1 : (2 * t + 1 + 2) % U32 = 2 * (t + 1) + 1 := by
        rw [Nat.mod_eq_of_lt (by omega)]; ring
      have h2 : (t + 1) % U32 = t + 1 := Nat.mod_eq_of_lt (by omega)
      obtain ⟨dec, he, hk, hm⟩ := ih (t + 1)
        (dst.write t (decode_hex_byte (src (2 * t)) (src (2 * t + 1)))) (by omega) (by omega)
      refine ⟨dec, ?_, ?_, ?_⟩
      · simp only [decode_hex_loop, hin, if_true, h1, h2, Nat.add_sub_cancel]
        exact he
      · intro k htk hkn
        by_cases hkt : k = t
        · subst hkt
          have e0 := hm k (Or.inl (by omega))
          simp only [Buf.write] at e0
          rw [e0]; simp
        · exact hk k (by omega) hkn
      · intro m hmm
        have e := hm m (by omega)
        rw [e]
        simp only [Buf.write]
        have : m ≠ t := by omega
        simp [*]
    · exact ⟨dst, by simp [decode_hex_loop, hin], fun k h1 h2 => by omega, fun _ _ => rfl⟩

/-- C1. Hex round trip: for a byte string `b` of length `n` (with `2 * n` a `u32` value),
`encode_hex` returns having written `2 * n` characters, and `decode_hex` run on those
characters with `src_len = 2 * n` returns having written exactly the `n` bytes of `b`
to the first `n` positions of its destination, leaving every other position as it was. -/
theorem hex_round_trip (b : Buf) (n : Nat) (hb : ∀ k, k < n → b k < 256)
    (hn : 2 * n < U32) (dst0 dst1 : Buf) :
    ∃ enc dec, encode_hex dst0 b n = some enc ∧
      (∀ m, 2 * n ≤ m → enc m = dst0 m) ∧
      decode_hex dst1 enc (2 * n) = some dec ∧
      (∀ k, k < n → dec k = b k) ∧
      (∀ m, n ≤ m → dec m = dst1 m) := by
  obtain ⟨enc, he, hk, hm⟩ := encode_hex_loop_spec b n hn n 0 dst0 (by omega) (by omega)
  obtain ⟨dec, hd, hdk, hdm⟩ := decode_hex_loop_spec enc n hn (2 * n) 0 dst1 (by omega) (by omega)
  refine ⟨enc, dec, he, fun m h => hm m (Or.inr h), hd, ?_, fun m h => hdm m (Or.inr h)⟩
  intro k hkn
  rw [hdk k (by omega) hkn, (hk k (by omega) hkn).1, (hk k (by omega) hkn).2]
  exact decode_hex_byte_hex (b k) (hb k hkn)

/-! ### Proofs: bounded header scanner -/

theorem bpf_loop_from_no_stop {σ : Type} (cb : Nat → σ → σ × Nat) (d : σ) :
    ∀ (r i : Nat), (∀ j, i ≤ j → j < i + r → cb j d = (d, 0)) →
      bpf_loop_from cb r i d = (d, i + r) := by
  intro r
  induction r with
  | zero => intro i _; rfl
  | succ r ih =>
    intro i h
    have h0 := h i (le_refl _) (by omega)
    simp only [bpf_loop_from, h0, ne_eq, not_true_eq_false, if_false]
    rw [ih (i + 1) (fun j h1 h2 => h j (by omega) (by omega))]
    congr 1; omega

theorem bpf_loop_from_stop {σ : Type} (cb : Nat → σ → σ × Nat) (d d1 : σ) (p ret : Nat)
    (hret : ret ≠ 0) (hp : cb p d = (d1, ret)) :
    ∀ (r i : Nat), i ≤ p → p < i + r → (∀ j, i ≤ j → j < p → cb j d = (d, 0)) →
      bpf_loop_from cb r i d = (d1, p + 1) := by
  intro r
  induction r with
  | zero => intro i h1 h2; omega
  | succ r ih =>
    intro i h1 h2 h
    by_cases hip : i = p
    · subst hip
      simp [bpf_loop_from, hp, hret]
    · have h0 := h i (le_refl _) (by omega)
      simp only [bpf_loop_from, h0, ne_eq, not_true_eq_false, if_false]
      exact ih (i + 1) (by omega) (by omega) (fun j h3 h4 => h j (by omega) h4)

theorem tp_match_no (buf : Buf) (j pos : Nat)
    (hj : j < TRACE_BUF_SIZE - TRACE_PARENT_HEADER_LEN)
    (h : is_traceparent (buf.shift j) = false) :
    tp_match j { buf := buf, pos := pos } = ({ buf := buf, pos := pos }, 0) := by
  have : ¬ j ≥ TRACE_BUF_SIZE - TRACE_PARENT_HEADER_LEN := by omega
  simp [tp_match, this, h]

theorem tp_match_yes (buf : Buf) (j pos : Nat)
    (hj : j < TRACE_BUF_SIZE - TRACE_PARENT_HEADER_LEN)
    (h : is_traceparent (buf.shift j) = true) :
    tp_match j { buf := buf, pos := pos } = ({ buf := buf, pos := j }, 1) := by
  have : ¬ j ≥ TRACE_BUF_SIZE - TRACE_PARENT_HEADER_LEN := by omega
  simp [tp_match, this, h]

theorem tp_match_cap (buf : Buf) (j pos : Nat)
    (hj : TRACE_BUF_SIZE - TRACE_PARENT_HEADER_LEN ≤ j) :
    tp_match j { buf := buf, pos := pos } = ({ buf := buf, pos := pos }, 1) := by
  simp [tp_match, hj]

/-- The scan of `bpf_strstr_tp_loop` when no scanned offset matches: `pos` stays 0. -/
theorem bpf_loop_tp_match_none (buf : Buf) (n : Nat)
    (h : ∀ i, i < n → i < TRACE_BUF_SIZE - TRACE_PARENT_HEADER_LEN →
      is_traceparent (buf.shift i) = false) :
    ((bpf_loop n tp_match { buf := buf, pos := 0 } 0).1).pos = 0 := by
  unfold bpf_loop
  simp only [ne_eq, not_true_eq_false, if_false]
  split
  · rfl
  · by_cases hn : n ≤ TRACE_BUF_SIZE - TRACE_PARENT_HEADER_LEN
    · rw [bpf_loop_from_no_stop tp_match _ n 0
        (fun j _ h2 => tp_match_no buf j 0 (by omega) (h j (by omega) (by omega)))]
    · rw [bpf_loop_from_stop tp_match _ _ (TRACE_BUF_SIZE - TRACE_PARENT_HEADER_LEN) 1
        (by decide) (tp_match_cap buf _ 0 (le_refl _)) n 0 (by omega) (by omega)
        (fun j _ h2 => tp_match_no buf j 0 h2 (h j (by omega) h2))]

/-- The first occurrence of the marker at an offset `p` with `1 ≤ p` inside the scanned
range is what `bpf_strstr_tp_loop` returns. -/
theorem bpf_strstr_tp_loop_first_match (buf : Buf) (buf_len p : Nat) (hlen : buf_len < U16)
    (hp1 : 1 ≤ p) (hpl : p < buf_len)
    (hpc : p < TRACE_BUF_SIZE - TRACE_PARENT_HEADER_LEN)
    (hm : is_traceparent (buf.shift p) = true)
    (hfirst : ∀ i, i < p → is_traceparent (buf.shift i) = false) :
    bpf_strstr_tp_loop true buf buf_len = some p := by
  have hU : buf_len % U32 = buf_len := Nat.mod_eq_of_lt (by
    have : U16 < U32 := by decide
    omega)
  have hmax : ¬ buf_len > BPF_MAX_LOOPS := by
    have : U16 < BPF_MAX_LOOPS := by decide
    omega
  have hloop : bpf_loop_from tp_match buf_len 0 { buf := buf, pos := 0 } =
      ({ buf := buf, pos := p }, p + 1) :=
    bpf_loop_from_stop tp_match _ _ p 1 (by decide) (tp_match_yes buf p 0 hpc hm) buf_len 0
      (by omega) (by omega) (fun j _ h2 => tp_match_no buf j 0 (by omega) (hfirst j h2))
  have hp0 : p ≠ 0 := by omega
  have hnot : ¬ p > TRACE_BUF_SIZE - TRACE_PARENT_HEADER_LEN := by omega
  simp [bpf_strstr_tp_loop, bpf_loop, hU, hmax, hloop, hp0, hnot]

theorem legacy_scan_none (buf : Buf) :
    ∀ (r i : Nat), (∀ j, i ≤ j → j < i + r → is_traceparent (buf.shift j) = false) →
      legacy_scan buf r i = none := by
  intro r
  induction r with
  | zero => intro i _; rfl
  | succ r ih =>
    intro i h
    simp only [legacy_scan, h i (le_refl _) (by omega), Bool.false_eq_true, if_false]
    exact ih (i + 1) (fun j h1 h2 => h j (by omega) (by omega))

/-- C2 (failing input). A buffer that starts with `Traceparent: ` satisfies `is_traceparent`
at offset 0, which is its first occurrence and lies inside the scanned range, yet
`bpf_strstr_tp_loop` returns `NULL` for it, while the legacy scanner returns `&buf[0]`. -/
theorem bpf_strstr_tp_loop_misses_offset_zero :
    is_traceparent (tpFirstBuf.shift 0) = true ∧
    0 < 1024 ∧ 0 < TRACE_BUF_SIZE - TRACE_PARENT_HEADER_LEN ∧
    bpf_strstr_tp_loop true tpFirstBuf 1024 = none ∧
    bpf_strstr_tp_loop__legacy true tpFirstBuf 1024 = some 0 := by
  refine ⟨by decide, by decide, by decide, by decide, by decide⟩

/-- C3. The header scanner returns not found (`NULL`) for every buffer and every `buf_len`
when `g_bpf_traceparent_enabled` is false, and, when the flag is enabled, for every buffer in
which no scanned offset satisfies `is_traceparent`; the scanned offsets are those below both
`buf_len` and `TRACE_BUF_SIZE - TRACE_PARENT_HEADER_LEN` for `bpf_strstr_tp_loop` and those
below 350 for `bpf_strstr_tp_loop__legacy`. -/
theorem scanner_not_found (buf : Buf) (buf_len : Nat) :
    bpf_strstr_tp_loop false buf buf_len = none ∧
    bpf_strstr_tp_loop__legacy false buf buf_len = none ∧
    ((∀ i, i < buf_len → i < TRACE_BUF_SIZE - TRACE_PARENT_HEADER_LEN →
        is_traceparent (buf.shift i) = false) →
      bpf_strstr_tp_loop true buf buf_len = none) ∧
    ((∀ i, i < k_besteffort_max_loops → is_traceparent (buf.shift i) = false) →
      bpf_strstr_tp_loop__legacy true buf buf_len = none) := by
  refine ⟨rfl, rfl, ?_, ?_⟩
  · intro h
    have hpos := bpf_loop_tp_match_none buf (buf_len % U32)
      (fun i h1 h2 => h i (lt_of_lt_of_le h1 (Nat.mod_le _ _)) h2)
    simp [bpf_strstr_tp_loop, hpos]
  · intro h
    simp only [bpf_strstr_tp_loop__legacy, Bool.not_true, Bool.false_eq_true, if_false]
    exact legacy_scan_none buf _ 0 (fun j _ h2 => h j (by omega))

/-- C1 (witness). The round trip on the four bytes `de ad be ef`. -/
theorem hex_round_trip_witness :
    (∀ k, k < 4 → hexSample k < 256) ∧ 2 * 4 < U32 ∧
    ∃ enc dec, encode_hex zeroBuf hexSample 4 = some enc ∧
      (∀ m, 2 * 4 ≤ m → enc m = zeroBuf m) ∧
      decode_hex zeroBuf enc (2 * 4) = some dec ∧
      (∀ k, k < 4 → dec k = hexSample k) ∧
      (∀ m, 4 ≤ m → dec m = zeroBuf m) :=
  ⟨by decide, by decide, hex_round_trip hexSample 4 (by decide) (by decide) zeroBuf zeroBuf⟩

set_option maxRecDepth 100000 in
/-- C3 (witness). A request without the header: no scanned offset matches, and both
scanners return not found with the flag enabled. -/
theorem scanner_not_found_witness :
    (∀ i, i < 64 → i < TRACE_BUF_SIZE - TRACE_PARENT_HEADER_LEN →
        is_traceparent (noTpBuf.shift i) = false) ∧
    (∀ i, i < k_besteffort_max_loops → is_traceparent (noTpBuf.shift i) = false) ∧
    bpf_strstr_tp_loop true noTpBuf 64 = none ∧
    bpf_strstr_tp_loop__legacy true noTpBuf 64 = none :=
  ⟨by decide, by decide,
   (scanner_not_found noTpBuf 64).2.2.1 (by decide),
   (scanner_not_found noTpBuf 64).2.2.2 (by decide)⟩

/-! ### Proofs: DNS parser -/

theorem bpf_skb_load_bytes_ok (skb : sk_buff) (offset len : Nat) (h : offset + len ≤ skb.len) :
    bpf_skb_load_bytes skb offset len =
      (0, (List.range len).map (fun k => skb.data (offset + k) % 256)) := by
  simp [bpf_skb_load_bytes, h]

theorem bpf_skb_load_bytes_fail (skb : sk_buff) (offset len : Nat)
    (h : ¬ offset + len ≤ skb.len) :
    bpf_skb_load_bytes skb offset len = (-14, List.replicate len 0) := by
  simp [bpf_skb_load_bytes, h]

theorem u16_swap_low (a b : Nat) (ha : a < 256) (hb : b < 256) :
    ((a + 256 * b) % 256 * 256 + (a + 256 * b) / 256 % 256) % 256 = b := by
  have h1 : (a + 256 * b) % 256 = a := by omega
  have h2 : (a + 256 * b) / 256 = b := by omega
  rw [h1, h2]; omega

theorem u16_big_high (a b : Nat) (ha : a < 256) (hb : b < 256) :
    (256 * a + b) % 65536 / 256 % 256 = a := by
  omega

/-- On a little-endian target the value `handle_dns` takes for `qr` from a readable flags
field is the least significant bit of the second flags byte (the lowest RCODE bit). -/
theorem dnsflags_qr_little (skb : sk_buff) (off : Nat) (h : off + 2 + 2 ≤ skb.len) :
    dnsflags_qr .little (bpf_ntohs .little (u16_of_bytes .little
      ((bpf_skb_load_bytes skb (off + dnshdr_flags_off) 2).2.getD 0 0)
      ((bpf_skb_load_bytes skb (off + dnshdr_flags_off) 2).2.getD 1 0))) =
    skb.data (off + 3) % 2 := by
  rw [bpf_skb_load_bytes_ok skb _ 2 (by simp only [dnshdr_flags_off]; omega)]
  simp only [dnshdr_flags_off, dnsflags_qr, bpf_ntohs, u16_of_bytes, u16_byte0, List.range,
    List.range.loop, List.map, List.getD_cons_zero, List.getD_cons_succ]
  have e : off + 2 + 1 = off + 3 := by omega
  rw [e, Nat.mod_mod, Nat.mod_mod,
    u16_swap_low _ _ (Nat.mod_lt _ (by decide)) (Nat.mod_lt _ (by decide))]
  omega

/-- On a big-endian target the value `handle_dns` takes for `qr` from a readable flags
field is the QR bit of RFC 1035. -/
theorem dnsflags_qr_big (skb : sk_buff) (off : Nat) (h : off + 2 + 2 ≤ skb.len) :
    dnsflags_qr .big (bpf_ntohs .big (u16_of_bytes .big
      ((bpf_skb_load_bytes skb (off + dnshdr_flags_off) 2).2.getD 0 0)
      ((bpf_skb_load_bytes skb (off + dnshdr_flags_off) 2).2.getD 1 0))) =
    rfc1035_qr skb off := by
  rw [bpf_skb_load_bytes_ok skb _ 2 (by simp only [dnshdr_flags_off]; omega)]
  simp only [dnshdr_flags_off, dnsflags_qr, bpf_ntohs, u16_of_bytes, u16_byte0, List.range,
    List.range.loop, List.map, List.getD_cons_zero, List.getD_cons_succ, rfc1035_qr, U16]
  have e : off + 2 + 0 = off + 2 := by omega
  rw [e, Nat.mod_mod, Nat.mod_mod]
  have e2 : (2 : Nat) ^ 16 = 65536 := by decide
  rw [e2, u16_big_high _ _ (Nat.mod_lt _ (by decide)) (Nat.mod_lt _ (by decide))]
  omega

theorem handle_dns_off_tcp (skb : sk_buff) (p_info : protocol_info_t)
    (htcp : p_info.l4_proto = IPPROTO_TCP) :
    handle_dns_off skb p_info =
      if (bpf_skb_load_bytes skb (p_info.ip_len % U16) sizeof_tcphdr).1 ≠ 0 then none
      else if skb.len ≤ (p_info.ip_len % U16 + tcp_header_len skb (p_info.ip_len % U16)) % U16
        then none
      else some (((p_info.ip_len % U16 + tcp_header_len skb (p_info.ip_len % U16)) % U16 + 2)
        % U16) := by
  unfold handle_dns_off
  rw [htcp, if_neg (by decide), if_pos rfl]

theorem tcp_header_len_of_wire (skb : sk_buff) (h40 : 20 + sizeof_tcphdr ≤ skb.len)
    (hdoff : skb.data 32 % 256 / 16 = 5) : tcp_header_len skb 20 = 20 := by
  simp only [tcp_header_len, tcph_doff]
  rw [bpf_skb_load_bytes_ok skb 20 sizeof_tcphdr h40]
  have : ((List.range sizeof_tcphdr).map (fun k => skb.data (20 + k) % 256)).getD 12 0
      = skb.data 32 % 256 := rfl
  rw [this, hdoff]

/-- C4 (failing input). A well-formed UDP DNS response with header bytes
`12 34 81 80 ...` (QR = 1, RCODE = 0) on a little-endian target, its connection present in
`sock_pids` and the reservation successful: `handle_dns` emits exactly one event, the two
bytes of its `id` field are the wire bytes `12 34`, but its `dns_q` is 0 although the QR bit
of the message is 1. On a big-endian target `dns_q` is 1 for the same packet. -/
theorem handle_dns_qr_not_rfc_bit :
    handle_dns_off dnsResponseSkb udpInfo = some 28 ∧
    rfc1035_qr dnsResponseSkb 28 = 1 ∧
    (handle_dns dnsEnvLE dnsResponseSkb dnsConn udpInfo).1 = 1 ∧
    (handle_dns dnsEnvLE dnsResponseSkb dnsConn udpInfo).2.map
      (fun ev => (u16_byte0 .little ev.id, u16_byte1 .little ev.id, ev.dns_q)) =
      [(0x12, 0x34, 0)] ∧
    (handle_dns dnsEnvBE dnsResponseSkb dnsConn udpInfo).2.map
      (fun ev => (u16_byte0 .big ev.id, u16_byte1 .big ev.id, ev.dns_q)) =
      [(0x12, 0x34, 1)] := by
  refine ⟨by decide, by decide, by decide, by decide, by decide⟩

/-- C5 (counterexample). A TCP segment with `l4_off = 20`, `tcp_header_len = 20` and skb
length 41 or 42, which is not above `dns_off = 42`, is not rejected: `handle_dns` goes on
with `dns_off = 42`, returns 1 and emits an event. -/
theorem handle_dns_tcp_len_41_42_not_rejected :
    (tcpSkb 41).len ≤ 42 ∧ (tcpSkb 42).len ≤ 42 ∧
    tcp_header_len (tcpSkb 41) 20 = 20 ∧ tcp_header_len (tcpSkb 42) 20 = 20 ∧
    handle_dns_off (tcpSkb 41) tcpInfo = some 42 ∧
    handle_dns_off (tcpSkb 42) tcpInfo = some 42 ∧
    (handle_dns dnsEnvLE (tcpSkb 41) dnsConn tcpInfo).1 = 1 ∧
    (handle_dns dnsEnvLE (tcpSkb 41) dnsConn tcpInfo).2.length = 1 ∧
    (handle_dns dnsEnvLE (tcpSkb 42) dnsConn tcpInfo).1 = 1 ∧
    (handle_dns dnsEnvLE (tcpSkb 42) dnsConn tcpInfo).2.length = 1 := by
  refine ⟨by decide, by decide, by decide, by decide, by decide, by decide, by decide,
    by decide, by decide, by decide⟩

/-- C5 (amended). For every TCP packet, `handle_dns` returns 0 and emits no event whenever
the skb length is at most `l4_off + tcp_header_len` (in 16-bit arithmetic), the offset of
the TCP payload, which is the DNS header offset less the two bytes of the length prefix;
with `l4_off = 20` and a data offset field of 5 (`tcp_header_len = 20`) every skb length
`≤ 40` is rejected and every greater length, 43 included, is processed with
`dns_off = 42`. -/
theorem handle_dns_tcp_no_payload (env : DnsEnv) (skb : sk_buff) (conn : connection_info_t)
    (p_info : protocol_info_t) (htcp : p_info.l4_proto = IPPROTO_TCP) :
    (skb.len ≤ (p_info.ip_len % U16 + tcp_header_len skb (p_info.ip_len % U16)) % U16 →
      handle_dns env skb conn p_info = (0, [])) ∧
    (p_info.ip_len = 20 → skb.data 32 % 256 / 16 = 5 →
      (skb.len ≤ 40 → handle_dns env skb conn p_info = (0, [])) ∧
      (40 < skb.len → handle_dns_off skb p_info = some 42)) := by
  constructor
  · intro h
    have hoff : handle_dns_off skb p_info = none := by
      rw [handle_dns_off_tcp skb p_info htcp, if_pos h]
      split <;> rfl
    simp [handle_dns, hoff]
  · intro hip hdoff
    have h20 : (20 : Nat) % U16 = 20 := by decide
    constructor
    · intro hlen
      have hoff : handle_dns_off skb p_info = none := by
        rw [handle_dns_off_tcp skb p_info htcp, hip, h20]
        by_cases h40 : 20 + sizeof_tcphdr ≤ skb.len
        · have hl : skb.len = 40 := by simp only [sizeof_tcphdr] at h40; omega
          rw [tcp_header_len_of_wire skb h40 hdoff, hl, if_pos (show 40 ≤ (20 + 20) % U16 by decide)]
          split <;> rfl
        · rw [bpf_skb_load_bytes_fail skb 20 sizeof_tcphdr h40]
          rw [if_pos (by decide)]
      simp [handle_dns, hoff]
    · intro hlen
      have h40 : 20 + sizeof_tcphdr ≤ skb.len := by simp only [sizeof_tcphdr]; omega
      have hnl : ¬ skb.len ≤ (20 + 20) % U16 := by
        have : (20 + 20) % U16 = 40 := by decide
        omega
      rw [handle_dns_off_tcp skb p_info htcp, hip, h20,
        tcp_header_len_of_wire skb h40 hdoff, bpf_skb_load_bytes_ok skb 20 sizeof_tcphdr h40,
        if_neg (by simp), if_neg hnl]
      rfl

/-- C5 (amended, witness). Length 40 is rejected, length 43 is processed with
`dns_off = 42`. -/
theorem handle_dns_tcp_no_payload_witness :
    tcpInfo.l4_proto = IPPROTO_TCP ∧
    handle_dns dnsEnvLE (tcpSkb 40) dnsConn tcpInfo = (0, []) ∧
    handle_dns_off (tcpSkb 43) tcpInfo = some 42 :=
  ⟨rfl,
   (handle_dns_tcp_no_payload dnsEnvLE (tcpSkb 40) dnsConn tcpInfo rfl).1 (by decide),
   ((handle_dns_tcp_no_payload dnsEnvLE (tcpSkb 43) dnsConn tcpInfo rfl).2
      (by decide) (by decide)).2 (by decide)⟩

/-! ### Proofs: SQL driver call -/

theorem bpf_probe_read_bytes_length (mem : UserMem) (size src : Nat) :
    (bpf_probe_read_bytes mem size src).2.length = size := by
  unfold bpf_probe_read_bytes
  split <;> simp

theorem bpf_probe_read_bytes_ok (mem : UserMem) (size src : Nat)
    (h : ∀ i, i < size → (mem.byte (src + i)).isSome = true) :
    bpf_probe_read_bytes mem size src =
      (0, (List.range size).map (fun i => (mem.byte (src + i)).getD 0)) := by
  unfold bpf_probe_read_bytes
  rw [if_pos]
  rw [List.all_eq_true]
  intro x hx
  exact h x (List.mem_range.mp hx)

theorem arr_write_length (arr bytes : List Nat) (h : bytes.length ≤ arr.length) :
    (arr_write arr bytes).length = arr.length := by
  simp only [arr_write, List.length_append, List.length_take, List.length_drop]
  omega

theorem arr_write_getD_lt (arr bytes : List Nat) (i : Nat) (h : bytes.length ≤ arr.length)
    (hi : i < bytes.length) : (arr_write arr bytes).getD i 0 = bytes.getD i 0 := by
  simp only [arr_write, List.getD_eq_getElem?_getD]
  rw [List.getElem?_append_left (by simp only [List.length_take]; omega),
    List.getElem?_take_of_lt (by omega)]

theorem arr_write_getD_ge (arr bytes : List Nat) (i : Nat) (h : bytes.length ≤ arr.length)
    (hi : bytes.length ≤ i) : (arr_write arr bytes).getD i 0 = arr.getD i 0 := by
  simp only [arr_write, List.getD_eq_getElem?_getD]
  rw [List.getElem?_append_right (by simp only [List.length_take]; omega), List.getElem?_drop]
  have e : bytes.length + (i - (List.take arr.length bytes).length) = i := by
    simp only [List.length_take]; omega
  rw [e]

theorem extract_sql_hostname_sql (env : SqlEnv) (trace : sql_request_trace_t) (d : Nat) :
    (extract_sql_hostname env trace d).1.sql = trace.sql := by
  unfold extract_sql_hostname
  simp only
  split
  · rfl
  · split <;> rfl

/-- The `sql` array of the record `obi_uprobe_queryReturn` submits. -/
theorem queryReturn_trace_sql (env : SqlEnv) (inv : sql_func_invocation_t) (ctx : pt_regs) :
    (queryReturn_trace env inv ctx).sql =
      if clamp_query_len inv.query_len env.trace0.sql.length < env.trace0.sql.length then
        (arr_write env.trace0.sql (bpf_probe_read_bytes env.mem
          (clamp_query_len inv.query_len env.trace0.sql.length) inv.sql_param).2).set
          (clamp_query_len inv.query_len env.trace0.sql.length) 0
      else
        arr_write env.trace0.sql (bpf_probe_read_bytes env.mem
          (clamp_query_len inv.query_len env.trace0.sql.length) inv.sql_param).2 := by
  unfold queryReturn_trace
  simp only [extract_sql_hostname_sql]
  split <;> rfl

theorem obi_uprobe_queryReturn_found (env : SqlEnv)
    (m : bpf_map go_addr_key_t sql_func_invocation_t) (ctx : pt_regs)
    (inv : sql_func_invocation_t)
    (hlook : bpf_map_lookup_elem m (env.go_addr_key_from_id (GOROUTINE_PTR ctx)) = some inv)
    (hres : env.ringbuf_reserve_ok = true) :
    obi_uprobe_queryReturn env m ctx =
      ((bpf_map_delete_elem m (env.go_addr_key_from_id (GOROUTINE_PTR ctx))).1,
        [queryReturn_trace env inv ctx]) := by
  simp [obi_uprobe_queryReturn, hlook, hres]

/-- C6. SQL completion with `N = sizeof(trace->sql)`: for every in-flight record found by
`obi_uprobe_queryReturn` (reservation successful) exactly one event is submitted, its `sql`
array has `N` bytes, and (a) where the first `min(query_len, N)` bytes of the query text are
readable the array holds them at the indices below `min(query_len, N)`; (b) when
`query_len < N` a NUL is at index `query_len` and every later index keeps what the reserved
record held; (c) when `query_len ≥ N` and the text is readable the array is exactly the
first `N` query bytes, no terminator being written. -/
theorem queryReturn_sql_copy (env : SqlEnv) (m : bpf_map go_addr_key_t sql_func_invocation_t)
    (ctx : pt_regs) (inv : sql_func_invocation_t)
    (hlook : bpf_map_lookup_elem m (env.go_addr_key_from_id (GOROUTINE_PTR ctx)) = some inv)
    (hres : env.ringbuf_reserve_ok = true) :
    ∃ ev, (obi_uprobe_queryReturn env m ctx).2 = [ev] ∧
      ev.sql.length = env.trace0.sql.length ∧
      ((∀ i, i < min inv.query_len env.trace0.sql.length →
          (env.mem.byte (inv.sql_param + i)).isSome = true) →
        ∀ i, i < min inv.query_len env.trace0.sql.length →
          ev.sql.getD i 0 = (env.mem.byte (inv.sql_param + i)).getD 0) ∧
      (inv.query_len < env.trace0.sql.length →
        ev.sql.getD inv.query_len 0 = 0 ∧
        ∀ i, inv.query_len < i → ev.sql.getD i 0 = env.trace0.sql.getD i 0) ∧
      (env.trace0.sql.length ≤ inv.query_len →
        (∀ i, i < env.trace0.sql.length →
          (env.mem.byte (inv.sql_param + i)).isSome = true) →
        ev.sql = (List.range env.trace0.sql.length).map
          (fun i => (env.mem.byte (inv.sql_param + i)).getD 0)) := by
  refine ⟨queryReturn_trace env inv ctx, ?_, ?_, ?_, ?_, ?_⟩
  · rw [obi_uprobe_queryReturn_found env m ctx inv hlook hres]
  · rw [queryReturn_trace_sql]
    have hc : clamp_query_len inv.query_len env.trace0.sql.length ≤ env.trace0.sql.length := by
      unfold clamp_query_len; split <;> omega
    split
    · rw [List.length_set, arr_write_length _ _ (by rw [bpf_probe_read_bytes_length]; exact hc)]
    · rw [arr_write_length _ _ (by rw [bpf_probe_read_bytes_length]; exact hc)]
  · intro hread i hi
    have hc : clamp_query_len inv.query_len env.trace0.sql.length =
        min inv.query_len env.trace0.sql.length := by
      unfold clamp_query_len; split <;> omega
    rw [queryReturn_trace_sql, hc, bpf_probe_read_bytes_ok _ _ _ hread]
    have hlen : ((List.range (min inv.query_len env.trace0.sql.length)).map
        (fun i => (env.mem.byte (inv.sql_param + i)).getD 0)).length =
        min inv.query_len env.trace0.sql.length := by simp
    have hget : (arr_write env.trace0.sql ((List.range (min inv.query_len
        env.trace0.sql.length)).map (fun i => (env.mem.byte (inv.sql_param + i)).getD 0))).getD
        i 0 = (env.mem.byte (inv.sql_param + i)).getD 0 := by
      rw [arr_write_getD_lt _ _ i (by rw [hlen]; omega) (by rw [hlen]; exact hi),
        List.getD_eq_getElem?_getD, List.getElem?_map, List.getElem?_range hi]
      rfl
    split
    · rw [List.getD_eq_getElem?_getD, List.getElem?_set_ne (by omega),
        ← List.getD_eq_getElem?_getD]
      exact hget
    · exact hget
  · intro hlt
    have hc : clamp_query_len inv.query_len env.trace0.sql.length = inv.query_len := by
      unfold clamp_query_len; split <;> omega
    rw [queryReturn_trace_sql, hc, if_pos hlt]
    have hlen := bpf_probe_read_bytes_length env.mem inv.query_len inv.sql_param
    constructor
    · rw [List.getD_eq_getElem?_getD, List.getElem?_set_self
        (by rw [arr_write_length _ _ (by omega)]; exact hlt)]
      rfl
    · intro i hi
      rw [List.getD_eq_getElem?_getD, List.getElem?_set_ne (by omega),
        ← List.getD_eq_getElem?_getD]
      exact arr_write_getD_ge _ _ i (by omega) (by omega)
  · intro hge hread
    have hc : clamp_query_len inv.query_len env.trace0.sql.length = env.trace0.sql.length := by
      unfold clamp_query_len; split <;> omega
    rw [queryReturn_trace_sql, hc, if_neg (lt_irrefl _), bpf_probe_read_bytes_ok _ _ _ hread]
    simp [arr_write]

/-- C6 (witness). A record with `query_len = 15` completing into an 8-byte `sql` array. -/
theorem queryReturn_sql_copy_witness :
    bpf_map_lookup_elem (obi_uprobe_queryDC (sqlEnvAt 10) sqlMapEmpty regsQueryDC)
      ((sqlEnvAt 30).go_addr_key_from_id (GOROUTINE_PTR regsReturn)) = some sqlInvQuery ∧
    (sqlEnvAt 30).ringbuf_reserve_ok = true ∧
    ∃ ev, (obi_uprobe_queryReturn (sqlEnvAt 30)
        (obi_uprobe_queryDC (sqlEnvAt 10) sqlMapEmpty regsQueryDC) regsReturn).2 = [ev] ∧
      ev.sql.length = (sqlEnvAt 30).trace0.sql.length ∧
      ((∀ i, i < min sqlInvQuery.query_len (sqlEnvAt 30).trace0.sql.length →
          ((sqlEnvAt 30).mem.byte (sqlInvQuery.sql_param + i)).isSome = true) →
        ∀ i, i < min sqlInvQuery.query_len (sqlEnvAt 30).trace0.sql.length →
          ev.sql.getD i 0 = ((sqlEnvAt 30).mem.byte (sqlInvQuery.sql_param + i)).getD 0) ∧
      (sqlInvQuery.query_len < (sqlEnvAt 30).trace0.sql.length →
        ev.sql.getD sqlInvQuery.query_len 0 = 0 ∧
        ∀ i, sqlInvQuery.query_len < i →
          ev.sql.getD i 0 = (sqlEnvAt 30).trace0.sql.getD i 0) ∧
      ((sqlEnvAt 30).trace0.sql.length ≤ sqlInvQuery.query_len →
        (∀ i, i < (sqlEnvAt 30).trace0.sql.length →
          ((sqlEnvAt 30).mem.byte (sqlInvQuery.sql_param + i)).isSome = true) →
        ev.sql = (List.range (sqlEnvAt 30).trace0.sql.length).map
          (fun i => ((sqlEnvAt 30).mem.byte (sqlInvQuery.sql_param + i)).getD 0)) :=
  ⟨by decide, rfl,
   queryReturn_sql_copy (sqlEnvAt 30) (obi_uprobe_queryDC (sqlEnvAt 10) sqlMapEmpty regsQueryDC)
     regsReturn sqlInvQuery (by decide) rfl⟩

theorem assoc_lookup_replace {κ ν : Type} [DecidableEq κ] (k : κ) (v : ν) :
    ∀ (l : List (κ × ν)), (assoc_lookup k l).isSome = true →
      assoc_lookup k (assoc_replace k v l) = some v := by
  intro l
  induction l with
  | nil => intro h; simp [assoc_lookup] at h
  | cons e es ih =>
    intro h
    by_cases he : e.1 = k
    · simp [assoc_replace, assoc_lookup, he]
    · simp only [assoc_lookup, he, if_false] at h
      simp only [assoc_replace, assoc_lookup, he, if_false]
      exact ih h

theorem assoc_lookup_replace_ne {κ ν : Type} [DecidableEq κ] (k k1 : κ) (v : ν) (hne : k1 ≠ k) :
    ∀ (l : List (κ × ν)), assoc_lookup k1 (assoc_replace k v l) = assoc_lookup k1 l := by
  intro l
  induction l with
  | nil => rfl
  | cons e es ih =>
    by_cases he : e.1 = k
    · have : ¬ e.1 = k1 := by rw [he]; exact fun h => hne h.symm
      have h2 : ¬ k = k1 := fun h => hne h.symm
      simp [assoc_replace, assoc_lookup, he, h2]
    · by_cases he1 : e.1 = k1
      · rw [assoc_replace, if_neg he, assoc_lookup, if_pos he1, assoc_lookup, if_pos he1]
      · simp only [assoc_replace, assoc_lookup, he, he1, if_false]
        exact ih

theorem assoc_lookup_erase {κ ν : Type} [DecidableEq κ] (k : κ) :
    ∀ (l : List (κ × ν)), assoc_lookup k (assoc_erase k l) = none := by
  intro l
  induction l with
  | nil => rfl
  | cons e es ih =>
    by_cases he : e.1 = k
    · simp only [assoc_erase, List.filter, he, ne_eq, not_true_eq_false, decide_False]
      exact ih
    · simp only [assoc_erase, List.filter, he, ne_eq, not_false_eq_true, decide_True,
        assoc_lookup, if_false]
      exact ih

theorem bpf_map_lookup_update {κ ν : Type} [DecidableEq κ] (m : bpf_map κ ν) (k : κ) (v : ν)
    (hroom : (bpf_map_lookup_elem m k).isSome = true ∨ m.entries.length < m.max_entries) :
    bpf_map_lookup_elem (bpf_map_update_elem m k v).1 k = some v := by
  unfold bpf_map_update_elem bpf_map_lookup_elem
  unfold bpf_map_lookup_elem at hroom
  by_cases hp : (assoc_lookup k m.entries).isSome = true
  · rw [if_pos hp]
    exact assoc_lookup_replace k v _ hp
  · rw [if_neg hp]
    have hlt : m.entries.length < m.max_entries := by
      rcases hroom with h | h
      · exact absurd h hp
      · exact h
    rw [if_pos hlt]
    simp [assoc_lookup]

theorem bpf_map_lookup_delete {κ ν : Type} [DecidableEq κ] (m : bpf_map κ ν) (k : κ) :
    bpf_map_lookup_elem (bpf_map_delete_elem m k).1 k = none := by
  unfold bpf_map_delete_elem bpf_map_lookup_elem
  by_cases hp : (assoc_lookup k m.entries).isSome = true
  · rw [if_pos hp]
    exact assoc_lookup_erase k _
  · rw [if_neg hp]
    cases h : assoc_lookup k m.entries with
    | none => rfl
    | some x => rw [h] at hp; exact absurd rfl hp

theorem extract_sql_hostname_start (env : SqlEnv) (trace : sql_request_trace_t) (d : Nat) :
    (extract_sql_hostname env trace d).1.start_monotime_ns = trace.start_monotime_ns := by
  unfold extract_sql_hostname
  simp only
  split
  · rfl
  · split <;> rfl

theorem queryReturn_trace_start (env : SqlEnv) (inv : sql_func_invocation_t) (ctx : pt_regs) :
    (queryReturn_trace env inv ctx).start_monotime_ns = inv.start_monotime_ns := by
  unfold queryReturn_trace
  simp only [extract_sql_hostname_start]
  split <;> rfl

theorem set_sql_info_eq (env : SqlEnv) (m : bpf_map go_addr_key_t sql_func_invocation_t)
    (g d sp q : Nat) :
    set_sql_info env m g d sp q =
      (bpf_map_update_elem m (env.go_addr_key_from_id g)
        { start_monotime_ns := env.ktime, sql_param := sp, query_len := q,
          driver_conn_ptr := d, conn := connection_info_t.zero,
          tp := env.client_trace_parent g tp_info_t.zero }).1 := rfl

/-- C7 (amended). Last-start-wins for SQL calls: two start observations (`set_sql_info`, as
called by `obi_uprobe_queryDC` and `obi_uprobe_execDC`) on the goroutine key `k` that the
table can store (`k` already present, or a free slot), followed by one completion with a
successful reservation: the starts emit
nothing, the completion submits exactly one event, the one built from the second start's
record (its start time, query locator and length, driver connection and trace context), and
afterwards `ongoing_sql_queries` holds no record for `k`, so a further completion changes
nothing and emits nothing. -/
theorem sql_last_start_wins (e1 e2 e3 e4 : SqlEnv)
    (m : bpf_map go_addr_key_t sql_func_invocation_t) (k : go_addr_key_t)
    (g1 d1 s1 q1 g2 d2 s2 q2 : Nat) (c3 c4 : pt_regs)
    (hk1 : e1.go_addr_key_from_id g1 = k) (hk2 : e2.go_addr_key_from_id g2 = k)
    (hk3 : e3.go_addr_key_from_id (GOROUTINE_PTR c3) = k)
    (hk4 : e4.go_addr_key_from_id (GOROUTINE_PTR c4) = k)
    (hroom : (bpf_map_lookup_elem m k).isSome = true ∨ m.entries.length < m.max_entries)
    (hres : e3.ringbuf_reserve_ok = true) :
    ∃ ev, (obi_uprobe_queryReturn e3
        (set_sql_info e2 (set_sql_info e1 m g1 d1 s1 q1) g2 d2 s2 q2) c3).2 = [ev] ∧
      ev = queryReturn_trace e3
        { start_monotime_ns := e2.ktime, sql_param := s2, query_len := q2,
          driver_conn_ptr := d2, conn := connection_info_t.zero,
          tp := e2.client_trace_parent g2 tp_info_t.zero } c3 ∧
      ev.start_monotime_ns = e2.ktime ∧
      bpf_map_lookup_elem (obi_uprobe_queryReturn e3
        (set_sql_info e2 (set_sql_info e1 m g1 d1 s1 q1) g2 d2 s2 q2) c3).1 k = none ∧
      obi_uprobe_queryReturn e4 (obi_uprobe_queryReturn e3
        (set_sql_info e2 (set_sql_info e1 m g1 d1 s1 q1) g2 d2 s2 q2) c3).1 c4 =
        ((obi_uprobe_queryReturn e3
          (set_sql_info e2 (set_sql_info e1 m g1 d1 s1 q1) g2 d2 s2 q2) c3).1, []) := by
  have h1 : (bpf_map_lookup_elem (set_sql_info e1 m g1 d1 s1 q1) k).isSome = true := by
    rw [set_sql_info_eq e1, hk1, bpf_map_lookup_update m k _ hroom]
    rfl
  have h2 : bpf_map_lookup_elem (set_sql_info e2 (set_sql_info e1 m g1 d1 s1 q1) g2 d2 s2 q2) k
      = some { start_monotime_ns := e2.ktime, sql_param := s2, query_len := q2,
               driver_conn_ptr := d2, conn := connection_info_t.zero,
               tp := e2.client_trace_parent g2 tp_info_t.zero } := by
    rw [set_sql_info_eq e2, hk2, bpf_map_lookup_update _ k _ (Or.inl h1)]
  have h3 := obi_uprobe_queryReturn_found e3 _ c3 _ (by rw [hk3]; exact h2) hres
  rw [h3, hk3]
  refine ⟨_, rfl, rfl, queryReturn_trace_start _ _ _, bpf_map_lookup_delete _ k, ?_⟩
  unfold obi_uprobe_queryReturn
  simp only [hk4, bpf_map_lookup_delete]

/-- C7 (amended, witness). A `queryDC` start at time 10 and an `execDC` start at time 20 on goroutine
0xc000, then the return probe at time 30: one event, with start time 20 and the text
`SELECT 1` of the second start. -/
theorem sql_last_start_wins_witness :
    (∃ ev, (obi_uprobe_queryReturn (sqlEnvAt 30)
        (obi_uprobe_execDC (sqlEnvAt 20)
          (obi_uprobe_queryDC (sqlEnvAt 10) sqlMapEmpty regsQueryDC) regsExecDC)
        regsReturn).2 = [ev] ∧
      ev = queryReturn_trace (sqlEnvAt 30)
        { start_monotime_ns := 20, sql_param := 0x7100, query_len := 8,
          driver_conn_ptr := 0x1000, conn := connection_info_t.zero,
          tp := (sqlEnvAt 20).client_trace_parent 0xc000 tp_info_t.zero } regsReturn ∧
      ev.start_monotime_ns = 20 ∧
      bpf_map_lookup_elem (obi_uprobe_queryReturn (sqlEnvAt 30)
        (obi_uprobe_execDC (sqlEnvAt 20)
          (obi_uprobe_queryDC (sqlEnvAt 10) sqlMapEmpty regsQueryDC) regsExecDC)
        regsReturn).1 { pid := 100, addr := 0xc000 } = none ∧
      obi_uprobe_queryReturn (sqlEnvAt 40) (obi_uprobe_queryReturn (sqlEnvAt 30)
        (obi_uprobe_execDC (sqlEnvAt 20)
          (obi_uprobe_queryDC (sqlEnvAt 10) sqlMapEmpty regsQueryDC) regsExecDC)
        regsReturn).1 regsReturn =
        ((obi_uprobe_queryReturn (sqlEnvAt 30)
          (obi_uprobe_execDC (sqlEnvAt 20)
            (obi_uprobe_queryDC (sqlEnvAt 10) sqlMapEmpty regsQueryDC) regsExecDC)
          regsReturn).1, [])) ∧
    (queryReturn_trace (sqlEnvAt 30)
        { start_monotime_ns := 20, sql_param := 0x7100, query_len := 8,
          driver_conn_ptr := 0x1000, conn := connection_info_t.zero,
          tp := (sqlEnvAt 20).client_trace_parent 0xc000 tp_info_t.zero } regsReturn).sql =
      bytesOf "SELECT 1" :=
  ⟨sql_last_start_wins (sqlEnvAt 10) (sqlEnvAt 20) (sqlEnvAt 30) (sqlEnvAt 40) sqlMapEmpty
     { pid := 100, addr := 0xc000 } 0xc000 0x1000 0x7000 15 0xc000 0x1000 0x7100 8
     regsReturn regsReturn rfl rfl rfl rfl (Or.inr (by decide)) rfl,
   by decide⟩

/-- Where the offset of `driverConn.ci` or the `mysqlConn` type address is unresolved,
`extract_sql_hostname` leaves the hostname empty and reads nothing that depends on the
unresolved offset: nothing at all for `driverConn.ci`, only the interface type pointer at
`driver_conn_ptr + ci_offset` for the type address. -/
theorem extract_sql_hostname_unresolved_ci_or_type (env : SqlEnv)
    (trace : sql_request_trace_t) (d : Nat) (hlen : 0 < trace.hostname.length) :
    (env.go_offset_of ._driverconn_ci_pos = 0 →
      is_empty_str (extract_sql_hostname env trace d).1.hostname = true ∧
      (extract_sql_hostname env trace d).2 = []) ∧
    (env.go_offset_of ._mysql_conn_type_off = 0 →
      is_empty_str (extract_sql_hostname env trace d).1.hostname = true ∧
      ((extract_sql_hostname env trace d).2 = [] ∨
       (extract_sql_hostname env trace d).2 =
         [(d + env.go_offset_of ._driverconn_ci_pos) % U64])) := by
  have hempty : is_empty_str (trace.hostname.set 0 0) = true := by
    cases h : trace.hostname with
    | nil => rw [h] at hlen; exact absurd hlen (by decide)
    | cons a as => rfl
  constructor
  · intro h0
    have hp : get_mysql_conn_ptr env d = (0, []) := by
      unfold get_mysql_conn_ptr
      split
      · rfl
      · simp [h0]
    unfold extract_sql_hostname
    simp only [hp]
    split
    · exact ⟨hempty, rfl⟩
    · exact ⟨hempty, rfl⟩
  · intro h0
    have hp : get_mysql_conn_ptr env d = (0, []) ∨
        get_mysql_conn_ptr env d = (0, [(d + env.go_offset_of ._driverconn_ci_pos) % U64]) := by
      unfold get_mysql_conn_ptr
      simp only [h0]
      split
      · exact Or.inl rfl
      · split
        · exact Or.inl rfl
        · split
          · exact Or.inr rfl
          · exact Or.inr rfl
    unfold extract_sql_hostname
    simp only
    split
    · exact ⟨hempty, Or.inl rfl⟩
    · rcases hp with hp | hp
      · rw [hp]; exact ⟨hempty, Or.inl rfl⟩
      · rw [hp]; exact ⟨hempty, Or.inr rfl⟩

/-- C9 (failing input). With the offset of `mysqlConn.cfg` unresolved (`go_offset_of` yields
0) and the other three resolved, `extract_sql_hostname` on the driver connection 0x1000 of
the example process still reads the `cfg` pointer at `mysql_conn_ptr + 0` (0x2000), follows
the unrelated pointer found there and leaves the non-empty hostname `root`, which is not the
server address `db:3306`. -/
theorem extract_sql_hostname_unresolved_cfg :
    sqlEnvNoCfg.go_offset_of ._mysql_conn_cfg_pos = 0 ∧
    get_mysql_conn_ptr sqlEnvNoCfg 0x1000 = (0x2000, [0x1010, 0x1018]) ∧
    (extract_sql_hostname sqlEnvNoCfg sqlTrace0 0x1000).2 =
      [0x1010, 0x1018, 0x2000 + 0, 0x3020, 0x3028, 0x4000] ∧
    (extract_sql_hostname sqlEnvNoCfg sqlTrace0 0x1000).1.hostname =
      bytesOf "root" ++ [0, 0xaa, 0xaa, 0xaa] ∧
    is_empty_str (extract_sql_hostname sqlEnvNoCfg sqlTrace0 0x1000).1.hostname = false := by
  refine ⟨rfl, by decide, by decide, by decide, by decide⟩

/-! ### Proofs: trace context cache -/

theorem assoc_lookup_erase_ne {κ ν : Type} [DecidableEq κ] (k k1 : κ) (hne : k1 ≠ k) :
    ∀ (l : List (κ × ν)), assoc_lookup k1 (assoc_erase k l) = assoc_lookup k1 l := by
  intro l
  induction l with
  | nil => rfl
  | cons e es ih =>
    by_cases he : e.1 = k
    · have he1 : ¬ e.1 = k1 := by rw [he]; exact fun h => hne h.symm
      have hf : assoc_erase k (e :: es) = assoc_erase k es := by
        simp [assoc_erase, List.filter, he]
      rw [hf, assoc_lookup, if_neg he1]
      exact ih
    · simp only [assoc_erase, List.filter, he, ne_eq, not_false_eq_true, decide_True,
        assoc_lookup]
      split
      · rfl
      · exact ih

theorem assoc_lookup_filter_evict {κ ν : Type} [DecidableEq κ] (evict : List κ) (k1 : κ) :
    ∀ (l : List (κ × ν)),
      assoc_lookup k1 (l.filter (fun e => decide (e.1 ∉ evict))) =
        if k1 ∈ evict then none else assoc_lookup k1 l := by
  intro l
  induction l with
  | nil => simp [assoc_lookup]
  | cons e es ih =>
    by_cases hev : e.1 ∈ evict
    · have hf : (e :: es).filter (fun e => decide (e.1 ∉ evict)) =
          es.filter (fun e => decide (e.1 ∉ evict)) := by
        simp [List.filter, hev]
      rw [hf, ih]
      by_cases hk : k1 ∈ evict
      · rw [if_pos hk, if_pos hk]
      · have hne : ¬ e.1 = k1 := fun h => hk (h ▸ hev)
        rw [if_neg hk, if_neg hk, assoc_lookup, if_neg hne]
    · have hf : (e :: es).filter (fun e => decide (e.1 ∉ evict)) =
          e :: es.filter (fun e => decide (e.1 ∉ evict)) := by
        simp [List.filter, hev]
      rw [hf]
      by_cases hek : e.1 = k1
      · have hk : ¬ k1 ∈ evict := fun h => hev (hek ▸ h)
        rw [assoc_lookup, if_pos hek, if_neg hk, assoc_lookup, if_pos hek]
      · rw [assoc_lookup, if_neg hek, ih, assoc_lookup, if_neg hek]

theorem assoc_lookup_isSome_of_mem {κ ν : Type} [DecidableEq κ] (x : κ × ν) :
    ∀ (l : List (κ × ν)), x ∈ l → (assoc_lookup x.1 l).isSome = true := by
  intro l
  induction l with
  | nil => intro h; exact absurd h (List.not_mem_nil _)
  | cons e es ih =>
    intro h
    by_cases he : e.1 = x.1
    · rw [assoc_lookup, if_pos he]; rfl
    · rw [assoc_lookup, if_neg he]
      rcases List.mem_cons.mp h with h1 | h1
      · exact absurd (by rw [h1]) he
      · exact ih h1

theorem assoc_lookup_map_range (v : obi_ctx_info_t) :
    ∀ (n k : Nat), assoc_lookup k ((List.range n).map (fun i => (i, v))) =
      if k < n then some v else none := by
  intro n
  induction n with
  | zero => intro k; rfl
  | succ n ih =>
    intro k
    rw [List.range_succ, List.map_append]
    have happ : ∀ (l1 l2 : List (Nat × obi_ctx_info_t)),
        assoc_lookup k (l1 ++ l2) =
          match assoc_lookup k l1 with
          | some w => some w
          | none => assoc_lookup k l2 := by
      intro l1 l2
      induction l1 with
      | nil => rfl
      | cons e es ih2 =>
        simp only [List.cons_append, assoc_lookup]
        split
        · rfl
        · exact ih2
    rw [happ, ih k]
    by_cases hk : k < n
    · simp [hk, Nat.lt_succ_of_lt hk]
    · by_cases hkn : k = n
      · subst hkn
        simp [assoc_lookup]
      · have : ¬ k < n + 1 := by omega
        have hnk : ¬ n = k := fun h => hkn h.symm
        simp [hk, this, assoc_lookup, hnk]

theorem bpf_memcpy_full (dst src : List Nat) (n : Nat) (hs : src.length = n)
    (hd : dst.length = n) : bpf_memcpy dst src n = src := by
  unfold bpf_memcpy
  rw [List.take_of_length_le (by omega), List.drop_of_length_le (by omega), List.append_nil]

theorem obi_ctx__get_val (m : lru_map Nat obi_ctx_info_t) (k : Nat) :
    (obi_ctx__get m k).1 = assoc_lookup k m.entries := by
  unfold obi_ctx__get lru_lookup_elem
  cases h : assoc_lookup k m.entries <;> rfl

theorem obi_ctx__set_eq (node_ok : Bool) (evict : List Nat) (m : lru_map Nat obi_ctx_info_t)
    (k : Nat) (ctx : tp_info_t) (ht : ctx.trace_id.length = TRACE_ID_SIZE_BYTES)
    (hs : ctx.span_id.length = SPAN_ID_SIZE_BYTES) :
    obi_ctx__set node_ok evict m k ctx =
      lru_update_elem node_ok evict m k
        { trace_id := ctx.trace_id, span_id := ctx.span_id } := by
  unfold obi_ctx__set
  simp only
  rw [bpf_memcpy_full _ _ _ ht (by simp), bpf_memcpy_full _ _ _ hs (by simp)]

/-- A successful update of the LRU table: what it leaves in the table. -/
theorem lru_update_elem_ok {κ ν : Type} [DecidableEq κ] (node_ok : Bool) (evict : List κ)
    (m : lru_map κ ν) (k : κ) (v : ν) (hok : (lru_update_elem node_ok evict m k v).2 = 0) :
    (assoc_erase k (m.entries.filter (fun e => decide (e.1 ∉ evict)))).length <
      m.max_entries ∧
    (lru_update_elem node_ok evict m k v).1.entries =
      (k, v) :: assoc_erase k (m.entries.filter (fun e => decide (e.1 ∉ evict))) := by
  unfold lru_update_elem at hok ⊢
  cases node_ok with
  | false => simp at hok
  | true =>
    simp only [Bool.not_true, Bool.false_eq_true, if_false] at hok ⊢
    by_cases hl : (assoc_erase k (m.entries.filter (fun e => decide (e.1 ∉ evict)))).length <
        m.max_entries
    · rw [if_pos hl]
      exact ⟨hl, rfl⟩
    · rw [if_neg hl] at hok
      simp at hok

/-- After a successful update of the LRU table the key holds the new value, the keys
evicted are absent and every other key holds what it held. -/
theorem lru_update_elem_lookup {κ ν : Type} [DecidableEq κ] (node_ok : Bool) (evict : List κ)
    (m : lru_map κ ν) (k : κ) (v : ν) (hok : (lru_update_elem node_ok evict m k v).2 = 0) :
    assoc_lookup k (lru_update_elem node_ok evict m k v).1.entries = some v ∧
    ∀ k1, k1 ≠ k →
      assoc_lookup k1 (lru_update_elem node_ok evict m k v).1.entries =
        if k1 ∈ evict then none else assoc_lookup k1 m.entries := by
  obtain ⟨_, he⟩ := lru_update_elem_ok node_ok evict m k v hok
  rw [he]
  constructor
  · rw [assoc_lookup, if_pos rfl]
  · intro k1 hne
    have hkk : ¬ k = k1 := fun h => hne h.symm
    rw [assoc_lookup, if_neg hkk, assoc_lookup_erase_ne k k1 hne, assoc_lookup_filter_evict]

/-- An update of the LRU table succeeds when a node is obtained and the eviction takes at
least one entry out of a table that is not over its capacity. -/
theorem lru_update_elem_succeeds {κ ν : Type} [DecidableEq κ] (evict : List κ)
    (m : lru_map κ ν) (k : κ) (v : ν) (hcap : m.entries.length ≤ m.max_entries)
    (x : κ × ν) (hx : x ∈ m.entries) (hev : x.1 ∈ evict) :
    (lru_update_elem true evict m k v).2 = 0 := by
  have h1 : (m.entries.filter (fun e => decide (e.1 ∉ evict))).length < m.entries.length :=
    List.length_filter_lt_length_iff_exists.mpr ⟨x, hx, by simp [hev]⟩
  have h2 : (assoc_erase k (m.entries.filter (fun e => decide (e.1 ∉ evict)))).length ≤
      (m.entries.filter (fun e => decide (e.1 ∉ evict))).length :=
    List.length_filter_le _ _
  unfold lru_update_elem
  simp only [Bool.not_true, Bool.false_eq_true, if_false]
  rw [if_pos (by omega)]

/-- C8 (counterexample). The table `traces_ctx_v1` full with its `1 << 14` entries, the
unit ids 16256 .. 16383 the least recently used: `obi_ctx__set` for the new unit id 16384,
for which the kernel evicts that batch, succeeds, and the entry of the other key 16383,
present before, is gone afterwards. -/
theorem obi_ctx_set_evicts_other_key :
    (obi_ctx__set true lruBatch fullCtxCache 16384 sampleTp).2 = 0 ∧
    (obi_ctx__get fullCtxCache 16383).1 = some sampleInfo ∧
    (obi_ctx__get (obi_ctx__set true lruBatch fullCtxCache 16384 sampleTp).1 16383).1 =
      none := by
  have hin : (16383 : Nat) ∈ lruBatch := by decide
  have hlt : 16383 < traces_ctx_v1_max_entries := by decide
  have hmem : ((16383 : Nat), sampleInfo) ∈ fullCtxCache.entries := by
    unfold fullCtxCache
    dsimp only
    rw [List.mem_map]
    exact ⟨16383, List.mem_range.mpr hlt, rfl⟩
  have hcap : fullCtxCache.entries.length ≤ fullCtxCache.max_entries := by
    unfold fullCtxCache
    dsimp only
    rw [List.length_map, List.length_range]
  have hset : (obi_ctx__set true lruBatch fullCtxCache 16384 sampleTp).2 = 0 := by
    rw [obi_ctx__set_eq true _ _ _ _ (by decide) (by decide)]
    exact lru_update_elem_succeeds lruBatch fullCtxCache 16384 _ hcap _ hmem hin
  refine ⟨hset, ?_, ?_⟩
  · rw [obi_ctx__get_val]
    unfold fullCtxCache
    dsimp only
    rw [assoc_lookup_map_range, if_pos hlt]
  · rw [obi_ctx__get_val]
    rw [obi_ctx__set_eq true _ _ _ _ (by decide) (by decide)] at hset ⊢
    rw [(lru_update_elem_lookup true lruBatch fullCtxCache 16384 _ hset).2 16383 (by decide),
      if_pos hin]

/-- C8 (amended). For every unit id `k` and trace context `ctx`, if `obi_ctx__set(k, ctx)`
succeeds then `obi_ctx__get(k)` right after it returns a present entry with the trace id
and span id of `ctx`. The entry of every other key is unchanged unless the kernel evicted
it within the set to obtain the node for the new entry, in which case it is absent; no
other key's entry is changed to another value. When `k` was absent and the table held
`max_entries` entries, a successful set has evicted the entry of at least one other key. -/
theorem obi_ctx_get_after_set (node_ok : Bool) (evict : List Nat)
    (m : lru_map Nat obi_ctx_info_t) (k : Nat)
    (ctx : tp_info_t) (ht : ctx.trace_id.length = TRACE_ID_SIZE_BYTES)
    (hs : ctx.span_id.length = SPAN_ID_SIZE_BYTES)
    (hset : (obi_ctx__set node_ok evict m k ctx).2 = 0) :
    (obi_ctx__get (obi_ctx__set node_ok evict m k ctx).1 k).1 =
      some { trace_id := ctx.trace_id, span_id := ctx.span_id } ∧
    (∀ k1, k1 ≠ k → k1 ∉ evict →
      (obi_ctx__get (obi_ctx__set node_ok evict m k ctx).1 k1).1 = (obi_ctx__get m k1).1) ∧
    (∀ k1, k1 ≠ k → k1 ∈ evict →
      (obi_ctx__get (obi_ctx__set node_ok evict m k ctx).1 k1).1 = none) ∧
    ((obi_ctx__get m k).1 = none → m.max_entries ≤ m.entries.length →
      ∃ k1, k1 ≠ k ∧ (obi_ctx__get m k1).1.isSome = true ∧
        (obi_ctx__get (obi_ctx__set node_ok evict m k ctx).1 k1).1 = none) := by
  rw [obi_ctx__set_eq node_ok evict m k ctx ht hs] at hset ⊢
  simp only [obi_ctx__get_val]
  obtain ⟨hk, hother⟩ := lru_update_elem_lookup node_ok evict m k _ hset
  refine ⟨hk, ?_, ?_, ?_⟩
  · intro k1 hne hnev
    rw [hother k1 hne, if_neg hnev]
  · intro k1 hne hev
    rw [hother k1 hne, if_pos hev]
  · intro habs hfull
    obtain ⟨hlen, _⟩ := lru_update_elem_ok node_ok evict m k _ hset
    have h1 : (assoc_erase k (m.entries.filter (fun e => decide (e.1 ∉ evict)))).length <
        m.entries.length := by omega
    unfold assoc_erase at h1
    rw [List.filter_filter] at h1
    obtain ⟨x, hx, hp⟩ := List.length_filter_lt_length_iff_exists.mp h1
    have hsome := assoc_lookup_isSome_of_mem x m.entries hx
    have hxk : x.1 ≠ k := by
      intro h
      rw [h, habs] at hsome
      exact absurd hsome (by decide)
    have hxe : x.1 ∈ evict := by
      by_contra hne
      apply hp
      simp [hxk, hne]
    exact ⟨x.1, hxk, hsome, by rw [hother x.1 hxk, if_pos hxe]⟩

/-- C8 (amended, witness). In a table holding the unit ids 1, 2 and 3, a set of unit id 2
within which the kernel evicts unit id 3: the get of 2 returns the new context, the entry
of 1 is unchanged and the entry of 3 is absent. -/
theorem obi_ctx_get_after_set_witness :
    (sampleTp.trace_id.length = TRACE_ID_SIZE_BYTES ∧
     sampleTp.span_id.length = SPAN_ID_SIZE_BYTES ∧
     (obi_ctx__set true [3] smallCtxCache 2 sampleTp).2 = 0) ∧
    (obi_ctx__get (obi_ctx__set true [3] smallCtxCache 2 sampleTp).1 2).1 =
      some { trace_id := sampleTp.trace_id, span_id := sampleTp.span_id } ∧
    ((obi_ctx__get (obi_ctx__set true [3] smallCtxCache 2 sampleTp).1 1).1 =
      (obi_ctx__get smallCtxCache 1).1 ∧
     (obi_ctx__get smallCtxCache 1).1 = some sampleInfo) ∧
    ((obi_ctx__get smallCtxCache 3).1.isSome = true ∧
     (obi_ctx__get (obi_ctx__set true [3] smallCtxCache 2 sampleTp).1 3).1 = none) :=
  ⟨⟨by decide, by decide, by decide⟩,
   (obi_ctx_get_after_set true [3] smallCtxCache 2 sampleTp (by decide) (by decide)
     (by decide)).1,
   ⟨(obi_ctx_get_after_set true [3] smallCtxCache 2 sampleTp (by decide) (by decide)
      (by decide)).2.1 1 (by decide) (by decide), by decide⟩,
   ⟨by decide,
    (obi_ctx_get_after_set true [3] smallCtxCache 2 sampleTp (by decide) (by decide)
      (by decide)).2.2.1 3 (by decide) (by decide)⟩⟩

/-! ### Proofs: socket descriptor correlation -/

/-- The two guarded paths of `obi_uprobe_netFdRead`: a gRPC transport or an HTTP server
connection whose connection info has a non-zero port leaves all tables unchanged. -/
theorem netFdRead_guarded_unchanged (env : NetEnv) (st : NetState) (ctx : pt_regs) :
    (∀ tr t,
      bpf_map_lookup_elem st.ongoing_grpc_operate_headers
        (env.go_addr_key_from_id (GOROUTINE_PTR ctx)) = some tr →
      bpf_map_lookup_elem st.ongoing_grpc_transports tr = some t →
      (t.conn.d_port ≠ 0 ∨ t.conn.s_port ≠ 0) →
      obi_uprobe_netFdRead env st ctx = st) ∧
    (∀ c,
      bpf_map_lookup_elem st.ongoing_grpc_operate_headers
        (env.go_addr_key_from_id (GOROUTINE_PTR ctx)) = none →
      bpf_map_lookup_elem st.ongoing_sql_queries
        (env.go_addr_key_from_id (GOROUTINE_PTR ctx)) = none →
      bpf_map_lookup_elem st.ongoing_mongo_requests
        (env.go_addr_key_from_id (GOROUTINE_PTR ctx)) = none →
      bpf_map_lookup_elem st.ongoing_server_connections
        (env.go_addr_key_from_id (GOROUTINE_PTR ctx)) = some c →
      (c.d_port ≠ 0 ∨ c.s_port ≠ 0) →
      obi_uprobe_netFdRead env st ctx = st) := by
  constructor
  · intro tr t h1 h2 hp
    have hg : ¬ (t.conn.d_port = 0 ∧ t.conn.s_port = 0) := by
      intro h; rcases hp with hp | hp
      · exact hp h.1
      · exact hp h.2
    simp [obi_uprobe_netFdRead, h1, h2, hg]
  · intro c h1 h2 h3 h4 hp
    have hg : ¬ (c.d_port = 0 ∧ c.s_port = 0) := by
      intro h; rcases hp with hp | hp
      · exact hp h.1
      · exact hp h.2
    simp [obi_uprobe_netFdRead, h1, h2, h3, h4, hg]

/-- C10 (failing input). A pending SQL invocation, and likewise a pending Mongo request,
found for the goroutine with its connection info already filled in (ports 40000 and 3306):
`obi_uprobe_netFdRead` overwrites that connection info with the one of the descriptor
being read (ports 50000 and 5432). -/
theorem netFdRead_overwrites_known_conn :
    (knownConn.s_port ≠ 0 ∧ knownConn.d_port ≠ 0 ∧ fdConn ≠ knownConn) ∧
    ((bpf_map_lookup_elem netStateSql.ongoing_sql_queries
        { pid := 100, addr := 0xc000 }).map (fun r => r.conn) = some knownConn ∧
     (bpf_map_lookup_elem (obi_uprobe_netFdRead netEnv netStateSql regsFdRead).ongoing_sql_queries
        { pid := 100, addr := 0xc000 }).map (fun r => r.conn) = some fdConn) ∧
    ((bpf_map_lookup_elem netStateMongo.ongoing_mongo_requests
        { pid := 100, addr := 0xc000 }).map (fun r => r.conn) = some knownConn ∧
     (bpf_map_lookup_elem
        (obi_uprobe_netFdRead netEnv netStateMongo regsFdRead).ongoing_mongo_requests
        { pid := 100, addr := 0xc000 }).map (fun r => r.conn) = some fdConn) := by
  refine ⟨⟨by decide, by decide, by decide⟩, ⟨by decide, by decide⟩, ⟨by decide, by decide⟩⟩

/-! ### Proofs: marker criterion -/

/-- C13 (counterexample). The window `TraceParent: ` satisfies `is_traceparent`, although
its bytes `p[1..12]` are `raceParent: ` and not `raceparent: `. -/
theorem is_traceparent_accepts_camel_case :
    is_traceparent camelTpBuf = true ∧
    window_tail camelTpBuf = bytesOf "raceParent: " ∧
    window_tail camelTpBuf ≠ bytesOf "raceparent: " ∧
    marker_criterion_spec camelTpBuf = false := by
  refine ⟨by decide, by decide, by decide, by decide⟩

/-- C13 (amended). For every 13-byte window `p`, `is_traceparent(p)` is true if and only if
`p[0]` is `T` or `t` and the remaining twelve bytes `p[1..12]` are exactly `raceparent: `
or exactly `raceParent: ` (the sixth byte may be `p` or `P`). -/
theorem is_traceparent_iff (p : Buf) :
    is_traceparent p = true ↔
      (p 0 = 'T'.toNat ∨ p 0 = 't'.toNat) ∧
      (window_tail p = bytesOf "raceparent: " ∨ window_tail p = bytesOf "raceParent: ") := by
  have hw : window_tail p =
      [p 1, p 2, p 3, p 4, p 5, p 6, p 7, p 8, p 9, p 10, p 11, p 12] := rfl
  have h1 : bytesOf "raceparent: " =
      ['r'.toNat, 'a'.toNat, 'c'.toNat, 'e'.toNat, 'p'.toNat, 'a'.toNat, 'r'.toNat, 'e'.toNat,
       'n'.toNat, 't'.toNat, ':'.toNat, ' '.toNat] := by decide
  have h2 : bytesOf "raceParent: " =
      ['r'.toNat, 'a'.toNat, 'c'.toNat, 'e'.toNat, 'P'.toNat, 'a'.toNat, 'r'.toNat, 'e'.toNat,
       'n'.toNat, 't'.toNat, ':'.toNat, ' '.toNat] := by decide
  rw [hw, h1, h2]
  simp only [is_traceparent, Bool.and_eq_true, Bool.or_eq_true, beq_iff_eq, List.cons.injEq,
    and_true]
  tauto

/-! ### Proofs: DNS payload offset -/

theorem tcph_doff_lt (skb : sk_buff) (l4_off : Nat) : tcph_doff skb l4_off < 16 := by
  unfold tcph_doff
  exact Nat.mod_lt _ (by decide)

/-- The value of the `switch` of `handle_dns`: `ip_len + 8` for UDP, `ip_len + 4 * doff + 2`
for a TCP packet with a readable header and some payload, both in 16-bit arithmetic, and an
immediate return otherwise. -/
theorem handle_dns_off_value (env : DnsEnv) (skb : sk_buff) (conn : connection_info_t)
    (p_info : protocol_info_t) :
    (p_info.l4_proto = IPPROTO_UDP →
      handle_dns_off skb p_info = some ((p_info.ip_len + 8) % U16)) ∧
    (p_info.l4_proto = IPPROTO_TCP →
      handle_dns_off skb p_info =
        if (bpf_skb_load_bytes skb (p_info.ip_len % U16) sizeof_tcphdr).1 ≠ 0 ∨
            skb.len ≤ (p_info.ip_len + 4 * tcph_doff skb (p_info.ip_len % U16)) % U16 then none
        else some ((p_info.ip_len + 4 * tcph_doff skb (p_info.ip_len % U16) + 2) % U16)) ∧
    (p_info.l4_proto ≠ IPPROTO_UDP → p_info.l4_proto ≠ IPPROTO_TCP →
      handle_dns env skb conn p_info = (0, [])) := by
  have hU : U16 = 65536 := by decide
  refine ⟨?_, ?_, ?_⟩
  · intro hudp
    unfold handle_dns_off
    rw [if_pos hudp]
    simp only [sizeof_udphdr, hU]
    congr 1
    omega
  · intro htcp
    rw [handle_dns_off_tcp skb p_info htcp]
    have hd := tcph_doff_lt skb (p_info.ip_len % U16)
    have hth : tcp_header_len skb (p_info.ip_len % U16) =
        4 * tcph_doff skb (p_info.ip_len % U16) := by
      unfold tcp_header_len
      omega
    have e1 : (p_info.ip_len % U16 + tcp_header_len skb (p_info.ip_len % U16)) % U16 =
        (p_info.ip_len + 4 * tcph_doff skb (p_info.ip_len % U16)) % U16 := by
      rw [hth, hU]; omega
    have e2 : ((p_info.ip_len + 4 * tcph_doff skb (p_info.ip_len % U16)) % U16 + 2) % U16 =
        (p_info.ip_len + 4 * tcph_doff skb (p_info.ip_len % U16) + 2) % U16 := by
      rw [hU]; omega
    rw [e1, e2]
    by_cases hl : (bpf_skb_load_bytes skb (p_info.ip_len % U16) sizeof_tcphdr).1 ≠ 0
    · rw [if_pos hl, if_pos (Or.inl hl)]
    · rw [if_neg hl]
      by_cases hlen : skb.len ≤ (p_info.ip_len + 4 * tcph_doff skb (p_info.ip_len % U16)) % U16
      · rw [if_pos hlen, if_pos (Or.inr hlen)]
      · rw [if_neg hlen, if_neg (by
          intro h
          rcases h with h | h
          · exact hl h
          · exact hlen h)]
  · intro h1 h2
    have hoff : handle_dns_off skb p_info = none := by
      unfold handle_dns_off
      rw [if_neg h1, if_neg h2]
    simp [handle_dns, hoff]

/-! ### Proofs: result of the header scanner -/

/-- What the scan of `bpf_strstr_tp_loop` leaves in `pos`: 0, or a scanned offset below the
cap at which the marker is. -/
theorem bpf_loop_from_tp_match_pos (buf : Buf) :
    ∀ (r i : Nat),
      (bpf_loop_from tp_match r i { buf := buf, pos := 0 }).1.pos = 0 ∨
      (i ≤ (bpf_loop_from tp_match r i { buf := buf, pos := 0 }).1.pos ∧
       (bpf_loop_from tp_match r i { buf := buf, pos := 0 }).1.pos < i + r ∧
       (bpf_loop_from tp_match r i { buf := buf, pos := 0 }).1.pos <
         TRACE_BUF_SIZE - TRACE_PARENT_HEADER_LEN ∧
       is_traceparent
         (buf.shift (bpf_loop_from tp_match r i { buf := buf, pos := 0 }).1.pos) = true) := by
  intro r
  induction r with
  | zero => intro i; exact Or.inl rfl
  | succ r ih =>
    intro i
    by_cases hcap : TRACE_BUF_SIZE - TRACE_PARENT_HEADER_LEN ≤ i
    · left
      simp [bpf_loop_from, tp_match_cap buf i 0 hcap]
    · have hlt : i < TRACE_BUF_SIZE - TRACE_PARENT_HEADER_LEN := by omega
      cases hm : is_traceparent (buf.shift i) with
      | true =>
        right
        simp only [bpf_loop_from, tp_match_yes buf i 0 hlt hm, ne_eq, one_ne_zero,
          not_false_eq_true, if_true]
        exact ⟨le_refl _, by omega, hlt, hm⟩
      | false =>
        simp only [bpf_loop_from, tp_match_no buf i 0 hlt hm, ne_eq, not_true_eq_false,
          if_false]
        rcases ih (i + 1) with h | ⟨h1, h2, h3, h4⟩
        · exact Or.inl h
        · exact Or.inr ⟨by omega, by omega, h3, h4⟩

/-- C16. Whenever `bpf_strstr_tp_loop` returns a non-null position `buf + p`, then
`1 ≤ p < TRACE_BUF_SIZE - TRACE_PARENT_HEADER_LEN` and `p < buf_len`, so the 68-byte header
starting at `p` lies inside the 1024-byte window, and `is_traceparent` holds at `p`. -/
theorem bpf_strstr_tp_loop_result_in_window (en : Bool) (buf : Buf) (buf_len p : Nat)
    (h : bpf_strstr_tp_loop en buf buf_len = some p) :
    1 ≤ p ∧ p < TRACE_BUF_SIZE - TRACE_PARENT_HEADER_LEN ∧ p < buf_len ∧
    p + TRACE_PARENT_HEADER_LEN ≤ TRACE_BUF_SIZE ∧
    TRACE_BUF_SIZE - TRACE_PARENT_HEADER_LEN = 956 ∧
    is_traceparent (buf.shift p) = true := by
  cases en with
  | false => simp [bpf_strstr_tp_loop] at h
  | true =>
    unfold bpf_strstr_tp_loop bpf_loop at h
    simp only [Bool.not_true, Bool.false_eq_true, if_false, ne_eq, not_true_eq_false] at h
    by_cases hmax : buf_len % U32 > BPF_MAX_LOOPS
    · simp [hmax] at h
    · rw [if_neg hmax] at h
      have hmod : buf_len % U32 ≤ buf_len := Nat.mod_le _ _
      rcases bpf_loop_from_tp_match_pos buf (buf_len % U32) 0 with h0 | ⟨_, h2, h3, h4⟩
      · simp [h0] at h
      · by_cases hp0 : (bpf_loop_from tp_match (buf_len % U32) 0
            { buf := buf, pos := 0 }).1.pos = 0
        · simp [hp0] at h
        · have hngt : ¬ (bpf_loop_from tp_match (buf_len % U32) 0
              { buf := buf, pos := 0 }).1.pos > TRACE_BUF_SIZE - TRACE_PARENT_HEADER_LEN := by
            omega
          simp only [hp0, not_false_eq_true, if_true, hngt, if_false, Option.some.injEq] at h
          subst h
          have hc : TRACE_BUF_SIZE - TRACE_PARENT_HEADER_LEN = 956 := by decide
          have hs : TRACE_BUF_SIZE = 1024 := rfl
          have hh : TRACE_PARENT_HEADER_LEN = 68 := rfl
          refine ⟨by omega, h3, by omega, by omega, hc, h4⟩

set_option maxRecDepth 100000 in
/-- C16 (witness). A request with the header at offset 16. -/
theorem bpf_strstr_tp_loop_result_in_window_witness :
    bpf_strstr_tp_loop true midTpBuf 1024 = some 16 ∧
    1 ≤ 16 ∧ 16 < TRACE_BUF_SIZE - TRACE_PARENT_HEADER_LEN ∧ 16 < 1024 ∧
    16 + TRACE_PARENT_HEADER_LEN ≤ TRACE_BUF_SIZE ∧
    TRACE_BUF_SIZE - TRACE_PARENT_HEADER_LEN = 956 ∧
    is_traceparent (midTpBuf.shift 16) = true :=
  ⟨by decide, bpf_strstr_tp_loop_result_in_window true midTpBuf 1024 16 (by decide)⟩

/-! ### Proofs: bounded scan -/

/-- The traced scan of `bpf_strstr_tp_loop` from index `i`: it leaves the same context as
the untraced scan and appends to the log the consecutive offsets `i, i + 1, ...`, all below
the cap, none but possibly the last of which matches. -/
theorem bpf_loop_from_tp_match_log (buf : Buf) :
    ∀ (r i pos : Nat) (log : List Nat),
      ∃ k, (bpf_loop_from tp_match_log r i ({ buf := buf, pos := pos }, log)).1.2 =
          log ++ List.range' i k ∧
        k ≤ r ∧
        (k = 0 ∨ i + k ≤ TRACE_BUF_SIZE - TRACE_PARENT_HEADER_LEN) ∧
        (∀ j, i ≤ j → j + 1 < i + k → is_traceparent (buf.shift j) = false) ∧
        (bpf_loop_from tp_match_log r i ({ buf := buf, pos := pos }, log)).1.1 =
          (bpf_loop_from tp_match r i { buf := buf, pos := pos }).1 := by
  intro r
  induction r with
  | zero =>
    intro i pos log
    exact ⟨0, by simp [bpf_loop_from], le_refl _, Or.inl rfl, fun j h1 h2 => by omega, rfl⟩
  | succ r ih =>
    intro i pos log
    by_cases hcap : TRACE_BUF_SIZE - TRACE_PARENT_HEADER_LEN ≤ i
    · have hl : tp_match_log i ({ buf := buf, pos := pos }, log) =
          (({ buf := buf, pos := pos }, log), 1) := by
        simp [tp_match_log, hcap]
      refine ⟨0, ?_, Nat.zero_le _, Or.inl rfl, fun j h1 h2 => by omega, ?_⟩
      · simp [bpf_loop_from, hl]
      · simp [bpf_loop_from, hl, tp_match_cap buf i pos hcap]
    · have hlt : i < TRACE_BUF_SIZE - TRACE_PARENT_HEADER_LEN := by omega
      have hncap : ¬ i ≥ TRACE_BUF_SIZE - TRACE_PARENT_HEADER_LEN := by omega
      cases hm : is_traceparent (buf.shift i) with
      | true =>
        have hl : tp_match_log i ({ buf := buf, pos := pos }, log) =
            (({ buf := buf, pos := i }, log ++ [i]), 1) := by
          simp [tp_match_log, hncap, hm]
        refine ⟨1, ?_, by omega, Or.inr (by omega), fun j h1 h2 => by omega, ?_⟩
        · simp [bpf_loop_from, hl]
        · simp [bpf_loop_from, hl, tp_match_yes buf i pos hlt hm]
      | false =>
        have hl : tp_match_log i ({ buf := buf, pos := pos }, log) =
            (({ buf := buf, pos := pos }, log ++ [i]), 0) := by
          simp [tp_match_log, hncap, hm]
        obtain ⟨k, hk1, hk2, hk3, hk4, hk5⟩ := ih (i + 1) pos (log ++ [i])
        refine ⟨k + 1, ?_, by omega, Or.inr (by omega), ?_, ?_⟩
        · simp only [bpf_loop_from, hl, ne_eq, not_true_eq_false, if_false]
          rw [hk1, List.range'_succ, List.append_assoc]
          rfl
        · intro j h1 h2
          by_cases hji : j = i
          · rw [hji]; exact hm
          · exact hk4 j (by omega) (by omega)
        · simp only [bpf_loop_from, hl, tp_match_no buf i pos hlt hm, ne_eq,
            not_true_eq_false, if_false]
          exact hk5

/-- The traced legacy scan from index `i`: same result as the untraced one, and the offsets
compared are the consecutive `i, i + 1, ...`, none but possibly the last of which matches. -/
theorem legacy_scan_traced_spec (buf : Buf) :
    ∀ (r i : Nat),
      (legacy_scan_traced buf r i).1 = legacy_scan buf r i ∧
      ∃ k, (legacy_scan_traced buf r i).2 = List.range' i k ∧ k ≤ r ∧
        (∀ j, i ≤ j → j + 1 < i + k → is_traceparent (buf.shift j) = false) := by
  intro r
  induction r with
  | zero =>
    intro i
    exact ⟨rfl, 0, rfl, le_refl _, fun j h1 h2 => by omega⟩
  | succ r ih =>
    intro i
    cases hm : is_traceparent (buf.shift i) with
    | true =>
      refine ⟨by simp [legacy_scan_traced, legacy_scan, hm], 1, ?_, by omega,
        fun j h1 h2 => by omega⟩
      simp [legacy_scan_traced, hm]
    | false =>
      obtain ⟨h1, k, hk1, hk2, hk3⟩ := ih (i + 1)
      refine ⟨by simp [legacy_scan_traced, legacy_scan, hm, h1], k + 1, ?_, by omega, ?_⟩
      · simp only [legacy_scan_traced, hm, Bool.false_eq_true, if_false]
        rw [hk1, List.range'_succ]
      · intro j h2 h3
        by_cases hji : j = i
        · rw [hji]; exact hm
        · exact hk3 j (by omega) (by omega)

/-- C15. Bounded scan: for every flag value, buffer content and `buf_len`, the traced
scanners return what the scanners return, and the offsets at which the marker is compared
are exactly `0, 1, ..., k - 1` for some `k` (strictly increasing from 0, each once), none of
them but possibly the last being a match (the scan stops at the first match); `k` is at
most `buf_len` and at most `TRACE_BUF_SIZE - TRACE_PARENT_HEADER_LEN = 956` in
`bpf_strstr_tp_loop`, and at most 350 in `bpf_strstr_tp_loop__legacy`. -/
theorem scanner_bounded_scan (en : Bool) (buf : Buf) (buf_len : Nat) :
    ((bpf_strstr_tp_loop_traced en buf buf_len).1 = bpf_strstr_tp_loop en buf buf_len ∧
      ∃ k, (bpf_strstr_tp_loop_traced en buf buf_len).2 = List.range k ∧
        k ≤ TRACE_BUF_SIZE - TRACE_PARENT_HEADER_LEN ∧ k ≤ 956 ∧ k ≤ buf_len ∧
        (∀ j, j + 1 < k → is_traceparent (buf.shift j) = false)) ∧
    ((bpf_strstr_tp_loop__legacy_traced en buf buf_len).1 =
        bpf_strstr_tp_loop__legacy en buf buf_len ∧
      ∃ k, (bpf_strstr_tp_loop__legacy_traced en buf buf_len).2 = List.range k ∧
        k ≤ k_besteffort_max_loops ∧ k ≤ 350 ∧
        (∀ j, j + 1 < k → is_traceparent (buf.shift j) = false)) := by
  have hc : TRACE_BUF_SIZE - TRACE_PARENT_HEADER_LEN = 956 := by decide
  have hnone : ∃ k, ([] : List Nat) = List.range k ∧
      k ≤ TRACE_BUF_SIZE - TRACE_PARENT_HEADER_LEN ∧ k ≤ 956 ∧ k ≤ buf_len ∧
      (∀ j, j + 1 < k → is_traceparent (buf.shift j) = false) :=
    ⟨0, rfl, Nat.zero_le _, Nat.zero_le _, Nat.zero_le _, fun j h => by omega⟩
  cases en with
  | false =>
    exact ⟨⟨rfl, hnone⟩, rfl, 0, rfl, Nat.zero_le _, Nat.zero_le _, fun j h => by omega⟩
  | true =>
    constructor
    · unfold bpf_strstr_tp_loop_traced bpf_strstr_tp_loop bpf_loop
      simp only [Bool.not_true, Bool.false_eq_true, if_false, ne_eq, not_true_eq_false]
      by_cases hmax : buf_len % U32 > BPF_MAX_LOOPS
      · rw [if_pos hmax, if_pos hmax]
        exact ⟨rfl, hnone⟩
      · rw [if_neg hmax, if_neg hmax]
        obtain ⟨k, hk1, hk2, hk3, hk4, hk5⟩ :=
          bpf_loop_from_tp_match_log buf (buf_len % U32) 0 0 []
        have hmod : buf_len % U32 ≤ buf_len := Nat.mod_le _ _
        have hlog : ∃ k, (bpf_loop_from tp_match_log (buf_len % U32) 0
              ({ buf := buf, pos := 0 }, [])).1.2 = List.range k ∧
            k ≤ TRACE_BUF_SIZE - TRACE_PARENT_HEADER_LEN ∧ k ≤ 956 ∧ k ≤ buf_len ∧
            (∀ j, j + 1 < k → is_traceparent (buf.shift j) = false) := by
          refine ⟨k, ?_, by omega, by omega, by omega, fun j h => hk4 j (Nat.zero_le _) (by omega)⟩
          rw [hk1, List.nil_append, List.range_eq_range']
        simp only [hk5]
        split
        · split
          · exact ⟨rfl, hlog⟩
          · exact ⟨rfl, hlog⟩
        · exact ⟨rfl, hlog⟩
    · unfold bpf_strstr_tp_loop__legacy_traced bpf_strstr_tp_loop__legacy
      simp only [Bool.not_true, Bool.false_eq_true, if_false]
      obtain ⟨h1, k, hk1, hk2, hk3⟩ := legacy_scan_traced_spec buf k_besteffort_max_loops 0
      have h350 : k_besteffort_max_loops = 350 := rfl
      refine ⟨h1, k, ?_, hk2, by omega, fun j h => hk3 j (Nat.zero_le _) (by omega)⟩
      rw [hk1, List.range_eq_range']

/-! ### Proofs: type-tag validation -/

theorem get_mysql_conn_ptr_mismatch (env : SqlEnv) (d : Nat)
    (hmis : ∀ t, env.mem.word ((d + env.go_offset_of ._driverconn_ci_pos) % U64) = some t →
      t ≠ env.go_offset_of ._mysql_conn_type_off) :
    (get_mysql_conn_ptr env d).1 = 0 ∧
    ((get_mysql_conn_ptr env d).2 = [] ∨
     (get_mysql_conn_ptr env d).2 = [(d + env.go_offset_of ._driverconn_ci_pos) % U64]) := by
  unfold get_mysql_conn_ptr
  by_cases hd : d = 0
  · rw [if_pos hd]; exact ⟨rfl, Or.inl rfl⟩
  · rw [if_neg hd]
    by_cases hci : env.go_offset_of ._driverconn_ci_pos = 0
    · simp [hci]
    · simp only [hci, if_false]
      cases hw : env.mem.word ((d + env.go_offset_of ._driverconn_ci_pos) % U64) with
      | none =>
        simp only [bpf_probe_read_word, hw]
        rw [if_pos (by decide)]
        exact ⟨rfl, Or.inr rfl⟩
      | some t =>
        simp only [bpf_probe_read_word, hw, ne_eq, not_true_eq_false, if_false]
        by_cases hty : env.go_offset_of ._mysql_conn_type_off = 0
        · rw [if_pos hty]; exact ⟨rfl, Or.inr rfl⟩
        · rw [if_neg hty, if_pos (hmis t hw)]; exact ⟨rfl, Or.inr rfl⟩

theorem extract_sql_hostname_null (env : SqlEnv) (trace : sql_request_trace_t) (d : Nat)
    (h : (get_mysql_conn_ptr env d).1 = 0) :
    (extract_sql_hostname env trace d).1 = { trace with hostname := trace.hostname.set 0 0 } := by
  unfold extract_sql_hostname
  simp only [h, if_true]
  split <;> rfl

theorem is_empty_str_set (l : List Nat) (h : 0 < l.length) : is_empty_str (l.set 0 0) = true := by
  cases l with
  | nil => exact absurd h (by decide)
  | cons a as => rfl

/-- The record `obi_uprobe_queryReturn` submits is the record with status, timestamps, trace
context, connection and query text filled in from the invocation, passed through
`extract_sql_hostname`. -/
theorem queryReturn_trace_eq (env : SqlEnv) (inv : sql_func_invocation_t) (ctx : pt_regs) :
    queryReturn_trace env inv ctx =
      (extract_sql_hostname env
        { type := env.EVENT_SQL_CLIENT,
          start_monotime_ns := inv.start_monotime_ns,
          end_monotime_ns := env.ktime,
          status := if GO_PARAM 1 ctx = 0 then 1 else 0,
          tp := inv.tp,
          conn := inv.conn,
          pid := env.task_pid,
          sql :=
            if clamp_query_len inv.query_len env.trace0.sql.length < env.trace0.sql.length then
              (arr_write env.trace0.sql (bpf_probe_read_bytes env.mem
                (clamp_query_len inv.query_len env.trace0.sql.length) inv.sql_param).2).set
                (clamp_query_len inv.query_len env.trace0.sql.length) 0
            else
              arr_write env.trace0.sql (bpf_probe_read_bytes env.mem
                (clamp_query_len inv.query_len env.trace0.sql.length) inv.sql_param).2,
          hostname := env.trace0.hostname } inv.driver_conn_ptr).1 := by
  unfold queryReturn_trace
  simp only
  split <;> rfl

/-- C11. Type-tag validation: for every in-flight record whose driver connection has a
`driverConn.ci` type pointer different from the `mysqlConn` type address of the offset
table, `get_mysql_conn_ptr` returns null having read at most the type pointer and not the
interface data pointer, `extract_sql_hostname` leaves the hostname empty, and
`obi_uprobe_queryReturn` (reservation successful) still submits the one event, with empty
hostname and with status, timestamps, trace context and query text as the invocation and
the probe hit give them. -/
theorem sql_type_tag_mismatch (env : SqlEnv) (m : bpf_map go_addr_key_t sql_func_invocation_t)
    (ctx : pt_regs) (inv : sql_func_invocation_t)
    (hlook : bpf_map_lookup_elem m (env.go_addr_key_from_id (GOROUTINE_PTR ctx)) = some inv)
    (hres : env.ringbuf_reserve_ok = true)
    (hhost : 0 < env.trace0.hostname.length)
    (hmis : ∀ t, env.mem.word
        ((inv.driver_conn_ptr + env.go_offset_of ._driverconn_ci_pos) % U64) = some t →
      t ≠ env.go_offset_of ._mysql_conn_type_off) :
    (get_mysql_conn_ptr env inv.driver_conn_ptr).1 = 0 ∧
    ((get_mysql_conn_ptr env inv.driver_conn_ptr).2 = [] ∨
     (get_mysql_conn_ptr env inv.driver_conn_ptr).2 =
       [(inv.driver_conn_ptr + env.go_offset_of ._driverconn_ci_pos) % U64]) ∧
    (inv.driver_conn_ptr + env.go_offset_of ._driverconn_ci_pos + 8) % U64 ∉
      (get_mysql_conn_ptr env inv.driver_conn_ptr).2 ∧
    (∀ trace : sql_request_trace_t, 0 < trace.hostname.length →
      is_empty_str (extract_sql_hostname env trace inv.driver_conn_ptr).1.hostname = true) ∧
    ∃ ev, (obi_uprobe_queryReturn env m ctx).2 = [ev] ∧
      is_empty_str ev.hostname = true ∧
      ev.status = (if GO_PARAM 1 ctx = 0 then 1 else 0) ∧
      ev.start_monotime_ns = inv.start_monotime_ns ∧
      ev.end_monotime_ns = env.ktime ∧
      ev.tp = inv.tp ∧
      ev.sql =
        (if clamp_query_len inv.query_len env.trace0.sql.length < env.trace0.sql.length then
          (arr_write env.trace0.sql (bpf_probe_read_bytes env.mem
            (clamp_query_len inv.query_len env.trace0.sql.length) inv.sql_param).2).set
            (clamp_query_len inv.query_len env.trace0.sql.length) 0
        else
          arr_write env.trace0.sql (bpf_probe_read_bytes env.mem
            (clamp_query_len inv.query_len env.trace0.sql.length) inv.sql_param).2) := by
  obtain ⟨hnull, hreads⟩ := get_mysql_conn_ptr_mismatch env inv.driver_conn_ptr hmis
  have hU : U64 = 18446744073709551616 := by decide
  refine ⟨hnull, hreads, ?_, ?_, queryReturn_trace env inv ctx, ?_, ?_, ?_, ?_, ?_, ?_, ?_⟩
  · rcases hreads with h | h
    · rw [h]; exact List.not_mem_nil _
    · rw [h, List.mem_singleton, hU]
      omega
  · intro trace hlen
    rw [extract_sql_hostname_null env trace _ hnull]
    exact is_empty_str_set _ hlen
  · rw [obi_uprobe_queryReturn_found env m ctx inv hlook hres]
  · rw [queryReturn_trace_eq, extract_sql_hostname_null env _ _ hnull]
    exact is_empty_str_set _ hhost
  · rw [queryReturn_trace_eq, extract_sql_hostname_null env _ _ hnull]
  · rw [queryReturn_trace_eq, extract_sql_hostname_null env _ _ hnull]
  · rw [queryReturn_trace_eq, extract_sql_hostname_null env _ _ hnull]
  · rw [queryReturn_trace_eq, extract_sql_hostname_null env _ _ hnull]
  · rw [queryReturn_trace_eq, extract_sql_hostname_null env _ _ hnull]

/-- C11 (witness). The example connection has type pointer 0x5000 while the offset table
names 0x5555: only the type pointer at 0x1010 is read, and the event of the completion
carries an empty hostname, status 0, start time 10, end time 30 and the text `SELECT *`. -/
theorem sql_type_tag_mismatch_witness :
    (bpf_map_lookup_elem (obi_uprobe_queryDC (sqlEnvAt 10) sqlMapEmpty regsQueryDC)
      (sqlEnvOtherDriver.go_addr_key_from_id (GOROUTINE_PTR regsReturn)) = some sqlInvQuery ∧
     sqlEnvOtherDriver.ringbuf_reserve_ok = true ∧
     0 < sqlEnvOtherDriver.trace0.hostname.length ∧
     sqlEnvOtherDriver.mem.word
       ((sqlInvQuery.driver_conn_ptr + sqlEnvOtherDriver.go_offset_of ._driverconn_ci_pos)
         % U64) = some 0x5000 ∧
     0x5000 ≠ sqlEnvOtherDriver.go_offset_of ._mysql_conn_type_off) ∧
    get_mysql_conn_ptr sqlEnvOtherDriver sqlInvQuery.driver_conn_ptr = (0, [0x1010]) ∧
    (get_mysql_conn_ptr sqlEnvOtherDriver sqlInvQuery.driver_conn_ptr).1 = 0 ∧
    (obi_uprobe_queryReturn sqlEnvOtherDriver
      (obi_uprobe_queryDC (sqlEnvAt 10) sqlMapEmpty regsQueryDC) regsReturn).2.map
      (fun ev => (ev.hostname, ev.sql, ev.status, ev.start_monotime_ns, ev.end_monotime_ns)) =
      [([0, 0xaa, 0xaa, 0xaa, 0xaa, 0xaa, 0xaa, 0xaa], bytesOf "SELECT *", 0, 10, 30)] :=
  ⟨⟨by decide, rfl, by decide, by decide, by decide⟩,
   by decide,
   (sql_type_tag_mismatch sqlEnvOtherDriver
     (obi_uprobe_queryDC (sqlEnvAt 10) sqlMapEmpty regsQueryDC) regsReturn sqlInvQuery
     (by decide) rfl (by decide)
     (by
       intro t ht
       have h5 : sqlEnvOtherDriver.mem.word
           ((sqlInvQuery.driver_conn_ptr + sqlEnvOtherDriver.go_offset_of ._driverconn_ci_pos)
             % U64) = some 0x5000 := by decide
       rw [h5] at ht
       cases ht
       decide)).1,
   by decide⟩

/-! ### Proofs: lookup priority of the socket descriptor correlation -/

theorem bpf_map_lookup_store_ne {κ ν : Type} [DecidableEq κ] (m : bpf_map κ ν) (k k1 : κ)
    (v : ν) (hne : k1 ≠ k) :
    bpf_map_lookup_elem (bpf_map_store m k v) k1 = bpf_map_lookup_elem m k1 := by
  unfold bpf_map_lookup_elem bpf_map_store
  exact assoc_lookup_replace_ne k k1 v hne m.entries

/-- C12. First match wins in `obi_uprobe_netFdRead`, `g` being the goroutine key: the tables
are consulted in the order gRPC operate-headers, SQL queries, Mongo requests, HTTP server
connections. With a gRPC operate-headers entry only the transport record it names can
change, and the SQL, Mongo and server tables are untouched; without one and with an SQL
record only the SQL record of `g` can change; without those and with a Mongo record only
the Mongo record of `g` can change; without those and with a server connection only the
server connection of `g` can change; when no table has an entry the whole state is
unchanged. -/
theorem netFdRead_first_match_wins (env : NetEnv) (st : NetState) (ctx : pt_regs)
    (g : go_addr_key_t) (hg : env.go_addr_key_from_id (GOROUTINE_PTR ctx) = g) :
    (∀ tr, bpf_map_lookup_elem st.ongoing_grpc_operate_headers g = some tr →
      (obi_uprobe_netFdRead env st ctx).ongoing_grpc_operate_headers =
        st.ongoing_grpc_operate_headers ∧
      (obi_uprobe_netFdRead env st ctx).ongoing_sql_queries = st.ongoing_sql_queries ∧
      (obi_uprobe_netFdRead env st ctx).ongoing_mongo_requests = st.ongoing_mongo_requests ∧
      (obi_uprobe_netFdRead env st ctx).ongoing_server_connections =
        st.ongoing_server_connections ∧
      ∀ k, k ≠ tr →
        bpf_map_lookup_elem (obi_uprobe_netFdRead env st ctx).ongoing_grpc_transports k =
          bpf_map_lookup_elem st.ongoing_grpc_transports k) ∧
    (bpf_map_lookup_elem st.ongoing_grpc_operate_headers g = none →
      ∀ r, bpf_map_lookup_elem st.ongoing_sql_queries g = some r →
      (obi_uprobe_netFdRead env st ctx).ongoing_grpc_operate_headers =
        st.ongoing_grpc_operate_headers ∧
      (obi_uprobe_netFdRead env st ctx).ongoing_grpc_transports = st.ongoing_grpc_transports ∧
      (obi_uprobe_netFdRead env st ctx).ongoing_mongo_requests = st.ongoing_mongo_requests ∧
      (obi_uprobe_netFdRead env st ctx).ongoing_server_connections =
        st.ongoing_server_connections ∧
      ∀ k, k ≠ g →
        bpf_map_lookup_elem (obi_uprobe_netFdRead env st ctx).ongoing_sql_queries k =
          bpf_map_lookup_elem st.ongoing_sql_queries k) ∧
    (bpf_map_lookup_elem st.ongoing_grpc_operate_headers g = none →
      bpf_map_lookup_elem st.ongoing_sql_queries g = none →
      ∀ r, bpf_map_lookup_elem st.ongoing_mongo_requests g = some r →
      (obi_uprobe_netFdRead env st ctx).ongoing_grpc_operate_headers =
        st.ongoing_grpc_operate_headers ∧
      (obi_uprobe_netFdRead env st ctx).ongoing_grpc_transports = st.ongoing_grpc_transports ∧
      (obi_uprobe_netFdRead env st ctx).ongoing_sql_queries = st.ongoing_sql_queries ∧
      (obi_uprobe_netFdRead env st ctx).ongoing_server_connections =
        st.ongoing_server_connections ∧
      ∀ k, k ≠ g →
        bpf_map_lookup_elem (obi_uprobe_netFdRead env st ctx).ongoing_mongo_requests k =
          bpf_map_lookup_elem st.ongoing_mongo_requests k) ∧
    (bpf_map_lookup_elem st.ongoing_grpc_operate_headers g = none →
      bpf_map_lookup_elem st.ongoing_sql_queries g = none →
      bpf_map_lookup_elem st.ongoing_mongo_requests g = none →
      ∀ c, bpf_map_lookup_elem st.ongoing_server_connections g = some c →
      (obi_uprobe_netFdRead env st ctx).ongoing_grpc_operate_headers =
        st.ongoing_grpc_operate_headers ∧
      (obi_uprobe_netFdRead env st ctx).ongoing_grpc_transports = st.ongoing_grpc_transports ∧
      (obi_uprobe_netFdRead env st ctx).ongoing_sql_queries = st.ongoing_sql_queries ∧
      (obi_uprobe_netFdRead env st ctx).ongoing_mongo_requests = st.ongoing_mongo_requests ∧
      ∀ k, k ≠ g →
        bpf_map_lookup_elem (obi_uprobe_netFdRead env st ctx).ongoing_server_connections k =
          bpf_map_lookup_elem st.ongoing_server_connections k) ∧
    (bpf_map_lookup_elem st.ongoing_grpc_operate_headers g = none →
      bpf_map_lookup_elem st.ongoing_sql_queries g = none →
      bpf_map_lookup_elem st.ongoing_mongo_requests g = none →
      bpf_map_lookup_elem st.ongoing_server_connections g = none →
      obi_uprobe_netFdRead env st ctx = st) := by
  refine ⟨?_, ?_, ?_, ?_, ?_⟩
  · intro tr h1
    cases h2 : bpf_map_lookup_elem st.ongoing_grpc_transports tr with
    | none =>
      have e : obi_uprobe_netFdRead env st ctx = st := by
        simp [obi_uprobe_netFdRead, hg, h1, h2]
      rw [e]
      exact ⟨rfl, rfl, rfl, rfl, fun _ _ => rfl⟩
    | some t =>
      by_cases hp : t.conn.d_port = 0 ∧ t.conn.s_port = 0
      · have e : obi_uprobe_netFdRead env st ctx =
            { st with ongoing_grpc_transports := (bpf_map_store st.ongoing_grpc_transports tr
                ({ t with conn := env.get_conn_info_from_fd (GO_PARAM 1 ctx) t.conn })) } := by
          simp [obi_uprobe_netFdRead, hg, h1, h2, hp]
        rw [e]
        exact ⟨rfl, rfl, rfl, rfl, fun k hk => bpf_map_lookup_store_ne _ tr k _ hk⟩
      · have e : obi_uprobe_netFdRead env st ctx = st := by
          simp [obi_uprobe_netFdRead, hg, h1, h2, hp]
        rw [e]
        exact ⟨rfl, rfl, rfl, rfl, fun _ _ => rfl⟩
  · intro h1 r h2
    have e : obi_uprobe_netFdRead env st ctx =
        { st with ongoing_sql_queries := (bpf_map_store st.ongoing_sql_queries g
            ({ r with conn := env.get_conn_info_from_fd (GO_PARAM 1 ctx) r.conn })) } := by
      simp [obi_uprobe_netFdRead, hg, h1, h2]
    rw [e]
    exact ⟨rfl, rfl, rfl, rfl, fun k hk => bpf_map_lookup_store_ne _ g k _ hk⟩
  · intro h1 h2 r h3
    have e : obi_uprobe_netFdRead env st ctx =
        { st with ongoing_mongo_requests := (bpf_map_store st.ongoing_mongo_requests g
            ({ r with conn := env.get_conn_info_from_fd (GO_PARAM 1 ctx) r.conn })) } := by
      simp [obi_uprobe_netFdRead, hg, h1, h2, h3]
    rw [e]
    exact ⟨rfl, rfl, rfl, rfl, fun k hk => bpf_map_lookup_store_ne _ g k _ hk⟩
  · intro h1 h2 h3 c h4
    by_cases hp : c.d_port = 0 ∧ c.s_port = 0
    · have e : obi_uprobe_netFdRead env st ctx =
          { st with ongoing_server_connections :=
              (bpf_map_store st.ongoing_server_connections g
                (env.get_conn_info_from_fd (GO_PARAM 1 ctx) c)) } := by
        simp [obi_uprobe_netFdRead, hg, h1, h2, h3, h4, hp]
      rw [e]
      exact ⟨rfl, rfl, rfl, rfl, fun k hk => bpf_map_lookup_store_ne _ g k _ hk⟩
    · have e : obi_uprobe_netFdRead env st ctx = st := by
        simp [obi_uprobe_netFdRead, hg, h1, h2, h3, h4, hp]
      rw [e]
      exact ⟨rfl, rfl, rfl, rfl, fun _ _ => rfl⟩
  · intro h1 h2 h3 h4
    simp [obi_uprobe_netFdRead, hg, h1, h2, h3, h4]

/-- C12 (witness). Goroutine 0xc000 with both a gRPC operate-headers entry and a pending SQL
invocation: the SQL table is untouched by `obi_uprobe_netFdRead`; and on tables without any
entry the state is unchanged. -/
theorem netFdRead_first_match_wins_witness :
    (netEnv.go_addr_key_from_id (GOROUTINE_PTR regsFdRead) = { pid := 100, addr := 0xc000 } ∧
     bpf_map_lookup_elem netStateGrpcSql.ongoing_grpc_operate_headers
       { pid := 100, addr := 0xc000 } = some 0x7777 ∧
     bpf_map_lookup_elem netStateGrpcSql.ongoing_sql_queries
       { pid := 100, addr := 0xc000 } = some sqlInvQuery) ∧
    (obi_uprobe_netFdRead netEnv netStateGrpcSql regsFdRead).ongoing_sql_queries =
      netStateGrpcSql.ongoing_sql_queries ∧
    obi_uprobe_netFdRead netEnv netStateEmpty regsFdRead = netStateEmpty :=
  ⟨⟨rfl, by decide, by decide⟩,
   ((netFdRead_first_match_wins netEnv netStateGrpcSql regsFdRead
      { pid := 100, addr := 0xc000 } rfl).1 0x7777 (by decide)).2.1,
   (netFdRead_first_match_wins netEnv netStateEmpty regsFdRead
      { pid := 100, addr := 0xc000 } rfl).2.2.2.2 (by decide) (by decide) (by decide)
      (by decide)⟩

set_option maxRecDepth 100000 in
/-- C15 (witness). On the request with the header at offset 16 both scanners compare the
offsets `0 .. 16` and stop; on a request without the header and `buf_len = 2000` the scan of
`bpf_strstr_tp_loop` compares 956 offsets. -/
theorem scanner_bounded_scan_witness :
    (bpf_strstr_tp_loop_traced true midTpBuf 1024).1 = bpf_strstr_tp_loop true midTpBuf 1024 ∧
    (bpf_strstr_tp_loop__legacy_traced true midTpBuf 1024).1 =
      bpf_strstr_tp_loop__legacy true midTpBuf 1024 ∧
    (bpf_strstr_tp_loop_traced true midTpBuf 1024).2 = List.range 17 ∧
    (bpf_strstr_tp_loop__legacy_traced true midTpBuf 1024).2 = List.range 17 ∧
    (∀ j, j < 16 → is_traceparent (midTpBuf.shift j) = false) ∧
    is_traceparent (midTpBuf.shift 16) = true :=
  ⟨(scanner_bounded_scan true midTpBuf 1024).1.1,
   (scanner_bounded_scan true midTpBuf 1024).2.1,
   by decide, by decide, by decide, by decide⟩

/-! ### Proofs: SQL starts on a full table -/

/-- C7 (counterexample). With `ongoing_sql_queries` full of other goroutines' records, two
start observations on goroutine 0xc000 (a `queryDC` at time 10, an `execDC` at time 20) are
not stored, `bpf_map_update_elem` failing both times, and the completion at time 30, its
reservation successful, emits no event. -/
theorem sql_starts_dropped_when_table_full :
    (bpf_map_update_elem sqlMapFull { pid := 100, addr := 0xc000 } sqlInvQuery).2 = -7 ∧
    obi_uprobe_execDC (sqlEnvAt 20)
      (obi_uprobe_queryDC (sqlEnvAt 10) sqlMapFull regsQueryDC) regsExecDC = sqlMapFull ∧
    (sqlEnvAt 30).ringbuf_reserve_ok = true ∧
    (obi_uprobe_queryReturn (sqlEnvAt 30)
      (obi_uprobe_execDC (sqlEnvAt 20)
        (obi_uprobe_queryDC (sqlEnvAt 10) sqlMapFull regsQueryDC) regsExecDC)
      regsReturn).2 = [] := by
  refine ⟨by decide, rfl, rfl, by decide⟩

/-! ### Proofs: where the DNS parser reads -/

theorem dnsflags_qr_bit (e : Endian) (v : Nat) :
    dnsflags_qr e v = k_dns_qr_query ∨ dnsflags_qr e v = k_dns_qr_resp := by
  cases e <;> simp only [dnsflags_qr, k_dns_qr_query, k_dns_qr_resp] <;> omega

/-- The traced `handle_dns` returns and emits what `handle_dns` does. -/
theorem handle_dns_traced_fst (env : DnsEnv) (skb : sk_buff) (conn : connection_info_t)
    (p_info : protocol_info_t) :
    (handle_dns_traced env skb conn p_info).1 = handle_dns env skb conn p_info := by
  unfold handle_dns_traced handle_dns
  cases handle_dns_off skb p_info with
  | none => rfl
  | some off =>
    simp only
    split
    · cases env.sock_pids (env.sort_connection_info conn) with
      | none => rfl
      | some cp =>
        simp only
        split <;> rfl
    · rfl

/-- Where `handle_dns` returns at once, only the TCP header load, if any, has been made. -/
theorem handle_dns_traced_none (env : DnsEnv) (skb : sk_buff) (conn : connection_info_t)
    (p_info : protocol_info_t) (h : handle_dns_off skb p_info = none) :
    handle_dns env skb conn p_info = (0, []) ∧
    (handle_dns_traced env skb conn p_info).2 =
      if p_info.l4_proto = IPPROTO_TCP then [p_info.ip_len % U16] else [] := by
  unfold handle_dns_traced handle_dns
  rw [h]
  exact ⟨rfl, rfl⟩

/-- Where `handle_dns` goes on with the offset `off`: its loads are the flags at `off + 2`
and the id at `off`, then `read_skb_bytes` at `off` for the event it emits, and the event
carries what was loaded there. -/
theorem handle_dns_traced_some (env : DnsEnv) (skb : sk_buff) (conn : connection_info_t)
    (p_info : protocol_info_t) (off : Nat) (h : handle_dns_off skb p_info = some off) :
    (handle_dns_traced env skb conn p_info).2 =
      (if p_info.l4_proto = IPPROTO_TCP then [p_info.ip_len % U16] else []) ++
        [off + 2, off] ++ (handle_dns env skb conn p_info).2.map (fun _ => off) ∧
    (∀ ev, ev ∈ (handle_dns env skb conn p_info).2 →
      ev.id = dns_id_at env skb off ∧ ev.dns_q = dns_qr_at env skb off ∧
      ev.buf = env.read_skb_bytes skb off) := by
  unfold handle_dns_traced handle_dns
  rw [h]
  simp only
  rw [if_pos (dnsflags_qr_bit _ _), if_pos (dnsflags_qr_bit _ _)]
  cases env.sock_pids (env.sort_connection_info conn) with
  | none => simp [dnshdr_flags_off, dnshdr_id_off]
  | some cp =>
    simp only
    cases env.ringbuf_reserve_ok with
    | false => simp [dnshdr_flags_off, dnshdr_id_off]
    | true =>
      simp [dnshdr_flags_off, dnshdr_id_off, dns_id_at, dns_qr_at]

/-- C14. DNS payload offset. The traced `handle_dns` is the same run as `handle_dns`. For a
UDP packet the loads of `handle_dns` are the flags at `off + 2`, the id at `off` and, for
the event it emits, the message at `off`, with `off = ip_len + 8`, and the event carries the
id, QR value and bytes loaded there. For a TCP packet the TCP header is loaded at `l4_off`;
if that fails or the skb has no payload the function returns 0 without event and without
reading a DNS header, and otherwise it reads in the same way at
`off = ip_len + 4 * doff + 2`. Both offsets are in 16-bit arithmetic. For every other L4
protocol `handle_dns` returns 0, emits no event and loads nothing. -/
theorem handle_dns_payload_offset (env : DnsEnv) (skb : sk_buff) (conn : connection_info_t)
    (p_info : protocol_info_t) :
    (handle_dns_traced env skb conn p_info).1 = handle_dns env skb conn p_info ∧
    (p_info.l4_proto = IPPROTO_UDP →
      (handle_dns_traced env skb conn p_info).2 =
        [(p_info.ip_len + 8) % U16 + 2, (p_info.ip_len + 8) % U16] ++
          (handle_dns env skb conn p_info).2.map (fun _ => (p_info.ip_len + 8) % U16) ∧
      ∀ ev, ev ∈ (handle_dns env skb conn p_info).2 →
        ev.id = dns_id_at env skb ((p_info.ip_len + 8) % U16) ∧
        ev.dns_q = dns_qr_at env skb ((p_info.ip_len + 8) % U16) ∧
        ev.buf = env.read_skb_bytes skb ((p_info.ip_len + 8) % U16)) ∧
    (p_info.l4_proto = IPPROTO_TCP →
      (((bpf_skb_load_bytes skb (p_info.ip_len % U16) sizeof_tcphdr).1 ≠ 0 ∨
          skb.len ≤ (p_info.ip_len + 4 * tcph_doff skb (p_info.ip_len % U16)) % U16) →
        handle_dns env skb conn p_info = (0, []) ∧
        (handle_dns_traced env skb conn p_info).2 = [p_info.ip_len % U16]) ∧
      (¬ ((bpf_skb_load_bytes skb (p_info.ip_len % U16) sizeof_tcphdr).1 ≠ 0 ∨
          skb.len ≤ (p_info.ip_len + 4 * tcph_doff skb (p_info.ip_len % U16)) % U16) →
        (handle_dns_traced env skb conn p_info).2 =
          [p_info.ip_len % U16,
           (p_info.ip_len + 4 * tcph_doff skb (p_info.ip_len % U16) + 2) % U16 + 2,
           (p_info.ip_len + 4 * tcph_doff skb (p_info.ip_len % U16) + 2) % U16] ++
            (handle_dns env skb conn p_info).2.map
              (fun _ => (p_info.ip_len + 4 * tcph_doff skb (p_info.ip_len % U16) + 2) % U16) ∧
        ∀ ev, ev ∈ (handle_dns env skb conn p_info).2 →
          ev.id = dns_id_at env skb
            ((p_info.ip_len + 4 * tcph_doff skb (p_info.ip_len % U16) + 2) % U16) ∧
          ev.dns_q = dns_qr_at env skb
            ((p_info.ip_len + 4 * tcph_doff skb (p_info.ip_len % U16) + 2) % U16) ∧
          ev.buf = env.read_skb_bytes skb
            ((p_info.ip_len + 4 * tcph_doff skb (p_info.ip_len % U16) + 2) % U16))) ∧
    (p_info.l4_proto ≠ IPPROTO_UDP → p_info.l4_proto ≠ IPPROTO_TCP →
      handle_dns env skb conn p_info = (0, []) ∧
      (handle_dns_traced env skb conn p_info).2 = []) := by
  obtain ⟨hudp, htcp, _⟩ := handle_dns_off_value env skb conn p_info
  refine ⟨handle_dns_traced_fst env skb conn p_info, ?_, ?_, ?_⟩
  · intro h
    have hnt : ¬ p_info.l4_proto = IPPROTO_TCP := by rw [h]; decide
    obtain ⟨h1, h2⟩ := handle_dns_traced_some env skb conn p_info _ (hudp h)
    rw [if_neg hnt, List.nil_append] at h1
    exact ⟨h1, h2⟩
  · intro h
    constructor
    · intro hc
      have hoff := htcp h
      rw [if_pos hc] at hoff
      obtain ⟨h1, h2⟩ := handle_dns_traced_none env skb conn p_info hoff
      rw [if_pos h] at h2
      exact ⟨h1, h2⟩
    · intro hc
      have hoff := htcp h
      rw [if_neg hc] at hoff
      obtain ⟨h1, h2⟩ := handle_dns_traced_some env skb conn p_info _ hoff
      rw [if_pos h] at h1
      exact ⟨h1, h2⟩
  · intro h1 h2
    have hoff : handle_dns_off skb p_info = none := by
      unfold handle_dns_off
      rw [if_neg h1, if_neg h2]
    obtain ⟨h3, h4⟩ := handle_dns_traced_none env skb conn p_info hoff
    rw [if_neg h2] at h4
    exact ⟨h3, h4⟩

/-- C14 (witness). The UDP response behind a 20-byte IP header is read at 30, 28 and 28 and
its one event carries the id bytes `12 34` found at offset 28; a TCP segment of length 43
with `doff = 5` is loaded at 20 and read at 44, 42 and 42; a TCP segment of length 40 is
only loaded at 20; an ICMP packet is not read at all. -/
theorem handle_dns_payload_offset_witness :
    ((handle_dns_traced dnsEnvLE dnsResponseSkb dnsConn udpInfo).2 =
        [(udpInfo.ip_len + 8) % U16 + 2, (udpInfo.ip_len + 8) % U16] ++
          (handle_dns dnsEnvLE dnsResponseSkb dnsConn udpInfo).2.map
            (fun _ => (udpInfo.ip_len + 8) % U16) ∧
      (handle_dns_traced dnsEnvLE dnsResponseSkb dnsConn udpInfo).2 = [30, 28, 28] ∧
      (handle_dns dnsEnvLE dnsResponseSkb dnsConn udpInfo).2.map
        (fun ev => (ev.id, ev.buf.take 4)) = [(0x3412, [0x12, 0x34, 0x81, 0x80])]) ∧
    ((handle_dns_traced dnsEnvLE (tcpSkb 43) dnsConn tcpInfo).2 = [20, 44, 42, 42] ∧
      (handle_dns_traced dnsEnvLE (tcpSkb 40) dnsConn tcpInfo).2 = [tcpInfo.ip_len % U16]) ∧
    (handle_dns dnsEnvLE dnsResponseSkb dnsConn icmpInfo = (0, []) ∧
      (handle_dns_traced dnsEnvLE dnsResponseSkb dnsConn icmpInfo).2 = []) :=
  ⟨⟨((handle_dns_payload_offset dnsEnvLE dnsResponseSkb dnsConn udpInfo).2.1 rfl).1,
     by decide, by decide⟩,
   ⟨by decide,
    (((handle_dns_payload_offset dnsEnvLE (tcpSkb 40) dnsConn tcpInfo).2.2.1 rfl).1
      (by decide)).2⟩,
   (handle_dns_payload_offset dnsEnvLE dnsResponseSkb dnsConn icmpInfo).2.2.2
     (by decide) (by decide)⟩

end Obi
